import Mathlib

/-!
Verification development for the `investi` fixed-income simulation library.

The definitions below are a shallow embedding of the Python sources:
`investi/investimentos/base.py` (class `Investimento`, dataclass
`ResultadoMensal`), `investi/investimentos/ipca.py` (`InvestimentoIPCA`),
`investi/investimentos/prefixado.py` (`InvestimentoPrefixado`),
`investi/carteira/carteira.py` (`Carteira`) and
`investi/simulacao/motor_simulacao.py` (`MotorSimulacao`).

Modelling conventions:
* Python `float` values are modelled as exact rationals (`ℚ`).
* `datetime.date` is modelled by `Data` (year, month, day) with the
  lexicographic order used by Python date comparison.
* `math.pow (x, 1/12)` is not rational-valued, so every definition that
  needs it takes an explicit parameter `pot : ℚ → ℚ` standing for the map
  `x ↦ x ** (1/12)`.  Theorems quantify over `pot`; concrete runs use an
  instantiation that is exact on the perfect 12th powers they evaluate.
* Python dictionaries keyed by dates are modelled as association lists
  with in-place update (`updA`), matching dict insertion/overwrite
  semantics; `max(dict.keys())` is `ultimoResultado`.
* A raised `ValueError` is modelled as `Except.error ()`.
-/

namespace Investi

/-- Calendar date mirroring Python `datetime.date` (ano = year, mes = month,
dia = day); comparisons are lexicographic, as in Python. -/
structure Data where
  ano : Nat
  mes : Nat
  dia : Nat
  deriving DecidableEq, Repr

/-- Python `date` strict comparison `a < b` (lexicographic). -/
def dataLt (a b : Data) : Bool :=
  a.ano < b.ano ||
    (a.ano == b.ano && (a.mes < b.mes || (a.mes == b.mes && a.dia < b.dia)))

/-- Python `date` equality test. -/
def dataEq (a b : Data) : Bool :=
  a.ano == b.ano && a.mes == b.mes && a.dia == b.dia

/-- Python `date` comparison `a <= b`. -/
def dataLe (a b : Data) : Bool :=
  dataLt a b || dataEq a b

/-- The combination operator enum `Operador` of `base.py`
(`ADITIVO = "+"`, `MULTIPLICADO = "x"`). -/
inductive Operador where
  | aditivo
  | multiplicado
  deriving DecidableEq, Repr

/-- Which Python class an instrument instance belongs to; this drives the
dynamic dispatch of the overridable methods `obter_taxa_mensal` and
`obter_valor_indexador`.  `base` is a direct `Investimento` instance,
`ipca` is `InvestimentoIPCA`, `prefixado` is `InvestimentoPrefixado`. -/
inductive Classe where
  | base
  | ipca
  | prefixado
  deriving DecidableEq, Repr

/-- The dataclass `ResultadoMensal` of `base.py`: one monthly snapshot. -/
structure ResultadoMensal where
  data : Data
  valor : ℚ
  valor_principal : ℚ
  juros : ℚ
  juros_acumulados : ℚ
  indexador : Option ℚ := none
  taxa_mensal : Option ℚ := none
  juros_pagos : Bool := false
  valor_juros_pagos : ℚ := 0
  valor_corrigido : ℚ := 0
  deriving DecidableEq, Repr

/-- A Python `Investimento` object: the constructor arguments stored in
`__init__` plus the mutable state fields.  `classe` records the concrete
Python class of the instance (for method dispatch); `fonte_ipca` is the
`InvestimentoIPCA` override mapping (empty for other classes). -/
structure Investimento where
  classe : Classe
  nome : String
  valor_principal : ℚ
  data_inicio : Data
  data_fim : Data
  taxa : ℚ
  operador : Option Operador
  indexador : Option String
  moeda : String
  juros_semestrais : Bool
  ipca_padrao : ℚ
  cdi_padrao : ℚ
  meses_pagamento_juros : Nat × Nat
  fonte_ipca : List (Data × ℚ)
  valor_cupom_prefixado : ℚ
  historico : List (Data × ResultadoMensal)
  juros_acumulados : ℚ
  ultimo_pagamento_juros : Option Data
  valor_corrigido : ℚ
  principal_inflacionado : ℚ
  deriving DecidableEq, Repr

/-- Association-list lookup (first match), modelling `d in dict` /
`dict[d]`. -/
def lookupA {α : Type} : List (Data × α) → Data → Option α
  | [], _ => none
  | (d, v) :: t, d' => if dataEq d' d then some v else lookupA t d'

/-- Association-list keyed store `dict[d] = v`: replaces the value in place
when the key is present, appends otherwise (Python dict semantics). -/
def updA {α : Type} : List (Data × α) → Data → α → List (Data × α)
  | [], d, v => [(d, v)]
  | (d0, v0) :: t, d, v =>
      if dataEq d d0 then (d0, v) :: t else (d0, v0) :: updA t d v

/-- The entry whose key is `max(historico.keys())`, i.e. the most recent
snapshot (`ultima_data` / `ultimo_resultado` in `simular_mes`). -/
def ultimoResultado : List (Data × ResultadoMensal) → Option (Data × ResultadoMensal)
  | [] => none
  | (d, r) :: t =>
      match ultimoResultado t with
      | none => some (d, r)
      | some (d', r') => if dataLt d d' then some (d', r') else some (d, r)

/-- `Investimento.obter_valor_indexador` with the dynamic dispatch of the
three classes: the `InvestimentoIPCA` override reads `fonte_ipca` and
falls back to the per-instance default `0.004`; the `InvestimentoPrefixado`
override returns `0`; the base implementation converts the default annual
IPCA/CDI rates to monthly via `(1 + anual) ** (1/12) - 1`. -/
def obterValorIndexador (pot : ℚ → ℚ) (inv : Investimento) (d : Data) : ℚ :=
  match inv.classe with
  | .ipca =>
      match lookupA inv.fonte_ipca d with
      | some v => v
      | none => 1/250
  | .prefixado => 0
  | .base =>
      if inv.indexador = some "IPCA" then pot (1 + inv.ipca_padrao) - 1
      else if inv.indexador = some "CDI" then pot (1 + inv.cdi_padrao) - 1
      else 0

/-- `Investimento.obter_taxa_mensal` with dynamic dispatch.  The base class
(`base.py` lines 170-202) uses, for `IPCA`+`ADITIVO`, the product formula
`(1 + inflacao) * (1 + taxa_real_mensal) - 1` with the rate given in
percentage points; the `InvestimentoIPCA` override (`ipca.py` lines 73-91)
instead returns the sum `ipca_mensal + taxa_mensal` with the rate given as
a decimal fraction; the `InvestimentoPrefixado` override returns
`(1 + taxa) ** (1/12) - 1` with a decimal-fraction rate. -/
def obterTaxaMensal (pot : ℚ → ℚ) (inv : Investimento) (d : Data) : ℚ :=
  match inv.classe with
  | .prefixado => pot (1 + inv.taxa) - 1
  | .ipca => obterValorIndexador pot inv d + (pot (1 + inv.taxa) - 1)
  | .base =>
      if inv.indexador = some "PREFIXADO" then pot (1 + inv.taxa / 100) - 1
      else if inv.indexador = some "IPCA" ∧ inv.operador = some .aditivo then
        (1 + obterValorIndexador pot inv d) * (1 + (pot (1 + inv.taxa / 100) - 1)) - 1
      else if inv.indexador = some "CDI" ∧ inv.operador = some .multiplicado then
        obterValorIndexador pot inv d * (inv.taxa / 100)
      else 0

/-- `Investimento.calcular_valor_cupom` (not overridden by any subclass):
fixed pre-computed coupon for the `'PREFIXADO'` indexador tag, `2.95%` of
the inflation-corrected principal for `IPCA`+`ADITIVO`, and the (never
updated) `juros_acumulados` attribute otherwise. -/
def calcularValorCupom (inv : Investimento) : ℚ :=
  if inv.indexador = some "PREFIXADO" then inv.valor_cupom_prefixado
  else if inv.indexador = some "IPCA" ∧ inv.operador = some .aditivo then
    inv.principal_inflacionado * ((59/20) / 100)
  else inv.juros_acumulados

/-- `Investimento._eh_mes_pagamento_juros`. -/
def ehMesPagamentoJuros (inv : Investimento) (d : Data) : Bool :=
  if !inv.juros_semestrais then false
  else if d.ano == inv.data_fim.ano && d.mes == inv.data_fim.mes then true
  else d.mes == inv.meses_pagamento_juros.1 || d.mes == inv.meses_pagamento_juros.2

/-- The synthesized inception snapshot stored by `simular_mes` when the
history is empty (`base.py` lines 282-294). -/
def resultadoInicial (inv : Investimento) : ResultadoMensal :=
  { data := inv.data_inicio
    valor := inv.valor_principal
    valor_principal := inv.valor_principal
    juros := 0
    juros_acumulados := 0
    indexador := none
    taxa_mensal := some 0
    juros_pagos := false
    valor_juros_pagos := 0
    valor_corrigido := inv.valor_principal }

/-- Intermediate state of one `simular_mes` call: the local variables of
the Python method together with the (possibly mutated) object. -/
structure Passo where
  inv : Investimento
  valor_atual : ℚ
  juros_mes : ℚ
  juros_acumulados : ℚ
  taxa_mensal : ℚ
  juros_pagos : Bool
  valor_juros_pagos : ℚ

/-- Accrual phase of `simular_mes` (`base.py` lines 269-341): the inception
branch, the prior-snapshot read (synthesizing an inception entry when the
history is empty), the inflation update of the corrected principal, the
monthly rate, the month's interest by kind, and the value update. -/
def passoAcumulacao (pot : ℚ → ℚ) (inv : Investimento) (data : Data) : Passo :=
  if dataEq data inv.data_inicio then
    { inv := { inv with valor_corrigido := inv.valor_principal
                        principal_inflacionado := inv.valor_principal }
      valor_atual := inv.valor_principal
      juros_mes := 0
      juros_acumulados := 0
      taxa_mensal := 0
      juros_pagos := false
      valor_juros_pagos := 0 }
  else
    let passo0 : Investimento × ℚ × ℚ :=
      if inv.historico.isEmpty then
        ({ inv with historico := updA inv.historico inv.data_inicio (resultadoInicial inv)
                    valor_corrigido := inv.valor_principal
                    principal_inflacionado := inv.valor_principal },
         inv.valor_principal, 0)
      else
        let ult := ((ultimoResultado inv.historico).getD (inv.data_inicio, resultadoInicial inv)).2
        let inv0 :=
          if inv.indexador = some "IPCA" ∧ inv.operador = some .aditivo then
            let pi := inv.principal_inflacionado * (1 + obterValorIndexador pot inv data)
            { inv with principal_inflacionado := pi, valor_corrigido := pi }
          else inv
        (inv0, ult.valor, ult.juros_acumulados)
    let inv0 := passo0.1
    let valor_atual0 := passo0.2.1
    let juros_acumulados0 := passo0.2.2
    let taxa_mensal := obterTaxaMensal pot inv0 data
    let juros_mes :=
      if inv0.indexador = some "IPCA" ∧ inv0.operador = some .aditivo then
        inv0.principal_inflacionado * taxa_mensal
      else if inv0.indexador = some "PREFIXADO" then
        inv0.valor_principal * (pot (1 + inv0.taxa / 100) - 1)
      else valor_atual0 * taxa_mensal
    let juros_acumulados1 := juros_acumulados0 + juros_mes
    let valor_atual1 :=
      if inv0.indexador = some "PREFIXADO" ∧ inv0.juros_semestrais then
        inv0.valor_principal + juros_acumulados1
      else valor_atual0 + juros_mes
    { inv := inv0
      valor_atual := valor_atual1
      juros_mes := juros_mes
      juros_acumulados := juros_acumulados1
      taxa_mensal := taxa_mensal
      juros_pagos := false
      valor_juros_pagos := 0 }

/-- Coupon/maturity phase of `simular_mes` (`base.py` lines 343-391). -/
def passoCupom (p : Passo) (data : Data) : Passo :=
  let inv := p.inv
  let eh_vencimento := data.ano == inv.data_fim.ano && data.mes == inv.data_fim.mes
  if inv.juros_semestrais ∧ ehMesPagamentoJuros inv data ∧ ¬ dataEq data inv.data_inicio then
    if eh_vencimento then
      if inv.indexador = some "PREFIXADO" then
        { p with inv := { inv with ultimo_pagamento_juros := some data }
                 juros_pagos := true
                 valor_juros_pagos := inv.valor_principal + inv.valor_cupom_prefixado
                 valor_atual := 0 }
      else if inv.indexador = some "IPCA" ∧ inv.operador = some .aditivo then
        { p with inv := { inv with ultimo_pagamento_juros := some data }
                 juros_pagos := true
                 valor_juros_pagos := inv.principal_inflacionado + calcularValorCupom inv
                 valor_atual := 0 }
      else
        { p with inv := { inv with ultimo_pagamento_juros := some data }
                 juros_pagos := true
                 valor_juros_pagos := inv.valor_principal + p.juros_acumulados
                 valor_atual := 0 }
    else
      let valor_cupom := calcularValorCupom inv
      if inv.indexador = some "IPCA" ∧ inv.operador = some .aditivo then
        { p with inv := { inv with ultimo_pagamento_juros := some data }
                 juros_pagos := true
                 valor_juros_pagos := valor_cupom
                 valor_atual := inv.principal_inflacionado
                 juros_acumulados := 0 }
      else if inv.indexador = some "PREFIXADO" then
        { p with inv := { inv with ultimo_pagamento_juros := some data }
                 juros_pagos := true
                 valor_juros_pagos := valor_cupom
                 valor_atual := inv.valor_principal
                 juros_acumulados := 0 }
      else
        { p with inv := { inv with ultimo_pagamento_juros := some data }
                 juros_pagos := true
                 valor_juros_pagos := valor_cupom
                 valor_atual := inv.valor_principal
                 juros_acumulados := 0 }
  else if eh_vencimento ∧ ¬ inv.juros_semestrais then
    if inv.indexador = some "IPCA" ∧ inv.operador = some .aditivo then
      { p with juros_pagos := true
               valor_juros_pagos := inv.principal_inflacionado + p.juros_acumulados
               valor_atual := 0
               juros_acumulados := 0 }
    else
      { p with juros_pagos := true
               valor_juros_pagos := p.valor_atual
               valor_atual := 0
               juros_acumulados := 0 }
  else p

/-- The `ResultadoMensal` snapshot built at the end of `simular_mes`
(`base.py` lines 394-405). -/
def montarResultado (pot : ℚ → ℚ) (p : Passo) (data : Data) : ResultadoMensal :=
  { data := data
    valor := p.valor_atual
    valor_principal := p.inv.valor_principal
    juros := p.juros_mes
    juros_acumulados := p.juros_acumulados
    indexador := some (obterValorIndexador pot p.inv data)
    taxa_mensal := some p.taxa_mensal
    juros_pagos := p.juros_pagos
    valor_juros_pagos := p.valor_juros_pagos
    valor_corrigido := p.inv.principal_inflacionado }

/-- `Investimento.simular_mes`: rejects dates before the start date with a
`ValueError`, otherwise runs the accrual and coupon phases, stores the
snapshot into the history and returns it together with the mutated
object. -/
def simularMes (pot : ℚ → ℚ) (inv : Investimento) (data : Data) :
    Except Unit (Investimento × ResultadoMensal) :=
  if dataLt data inv.data_inicio then .error ()
  else
    let p := passoCupom (passoAcumulacao pot inv data) data
    let resultado := montarResultado pot p data
    .ok ({ p.inv with historico := updA p.inv.historico data resultado }, resultado)

/-- One step of the month loop of `_gerar_meses`: advance to the next
calendar month, wrapping December to January of the next year. -/
def proximoMes (ano mes : Nat) : Nat × Nat :=
  if mes + 1 > 12 then (ano + 1, 1) else (ano, mes + 1)

/-- The `while` loop of `_gerar_meses`, with explicit fuel.  The loop keeps
appending the next month while the first-of-month date of the current
month is strictly before `data_fim`. -/
def gerarMesesAux (fim : Data) : Nat → Nat → Nat → List Data
  | 0, _, _ => []
  | fuel + 1, ano, mes =>
      if dataLt ⟨ano, mes, 1⟩ fim then
        let am := proximoMes ano mes
        ⟨am.1, am.2, 1⟩ :: gerarMesesAux fim fuel am.1 am.2
      else []

/-- `Investimento._gerar_meses` and `Carteira._gerar_meses` (the two are
textually identical): the first-of-month date of `data_inicio` followed by
the loop output.  The fuel `12*fim.ano + fim.mes + 1 - (12*ano0 + mes0)`
bounds the number of iterations for every Python-valid date (month in
`[1,12]`): the current month index `12*ano + mes - 1` increases by one per
iteration and the loop condition forces it to stay at most
`12 * fim.ano + fim.mes - 1`; this adequacy is proved in the month-sequence
theorem below, so the fuelled loop coincides with the Python `while`
loop. -/
def gerarMeses (data_inicio data_fim : Data) : List Data :=
  ⟨data_inicio.ano, data_inicio.mes, 1⟩ ::
    gerarMesesAux data_fim
      (12 * data_fim.ano + data_fim.mes + 1 - (12 * data_inicio.ano + data_inicio.mes))
      data_inicio.ano data_inicio.mes

/-- The linear month index `12 * ano + (mes - 1)` of a date. -/
def mesIdx (d : Data) : Nat := 12 * d.ano + (d.mes - 1)

/-- The first-of-month date of the month with linear index `idx`. -/
def primeiroDoMes (idx : Nat) : Data := ⟨idx / 12, idx % 12 + 1, 1⟩

/-- The month index at which the `_gerar_meses` loop stops: the first month
whose first-of-month date is on or after `fim` — the month of `fim` when
`fim` is the first day of its month, the following month otherwise. -/
def idxParada (fim : Data) : Nat :=
  if 1 < fim.dia then mesIdx fim + 1 else mesIdx fim

/-- Sum of the `valor_juros_pagos` of the history entries with
`data_inicio < data <= data_fim` and `juros_pagos` set (the generator
expression in `calcular_rentabilidade`). -/
def somaJurosPagos (h : List (Data × ResultadoMensal)) (d0 d1 : Data) : ℚ :=
  (h.filter (fun p => dataLt d0 p.1 && dataLe p.1 d1 && p.2.juros_pagos)).foldr
    (fun p acc => p.2.valor_juros_pagos + acc) 0

/-- `min(historico.keys())`. -/
def primeiraData : List (Data × ResultadoMensal) → Option Data
  | [] => none
  | (d, _) :: t =>
      match primeiraData t with
      | none => some d
      | some d' => if dataLt d' d then some d' else some d

/-- `Investimento.calcular_rentabilidade`: defaults omitted dates to the
first/last history dates, fails when the history is empty or a date is not
in the history, and returns
`(valor_final + juros_pagos_no_periodo) / valor_inicial - 1`. -/
def calcularRentabilidade (inv : Investimento) (od0 od1 : Option Data) :
    Except Unit ℚ :=
  if inv.historico.isEmpty then .error ()
  else
    let d0 := od0.getD ((primeiraData inv.historico).getD inv.data_inicio)
    let d1 := od1.getD (((ultimoResultado inv.historico).getD
      (inv.data_inicio, resultadoInicial inv)).1)
    match lookupA inv.historico d0 with
    | none => .error ()
    | some r0 =>
        match lookupA inv.historico d1 with
        | none => .error ()
        | some r1 =>
            .ok ((r1.valor + somaJurosPagos inv.historico d0 d1) / r0.valor - 1)

/-- The spec-side rentability formula ("final recorded value plus coupons
paid strictly after window start through window end, divided by the value
at window start, minus 1"), with the coupon sum NOT filtered by the
`juros_pagos` flag.  Used to compare `calcular_rentabilidade` against the
specification wording. -/
def rentabilidadeSpec (h : List (Data × ResultadoMensal)) (d0 d1 : Data)
    (v0 v1 : ℚ) : ℚ :=
  (v1 + (h.filter (fun p => dataLt d0 p.1 && dataLe p.1 d1)).foldr
    (fun p acc => p.2.valor_juros_pagos + acc) 0) / v0 - 1

/-- The dataclass `ResultadoCarteira` of `carteira.py`.  `NaN` cells of the
per-month mapping are modelled as `none`. -/
structure ResultadoCarteira where
  data_inicio : Data
  data_fim : Data
  investimentos : List (String × Investimento)
  resultado_mensal : List (Data × List (String × Option ℚ))
  resultado_consolidado : List (Data × ℚ)
  dividendos_recebidos : List (Data × List (String × ℚ))
  total_dividendos : ℚ
  deriving DecidableEq, Repr

/-- The class `Carteira`: a named, insertion-ordered mapping from
instrument name to instrument, plus the last simulation result. -/
structure Carteira where
  nome : String
  investimentos : List (String × Investimento)
  resultado : Option ResultadoCarteira
  deriving DecidableEq, Repr

/-- The inner per-instrument loop of `Carteira.simular` for one month:
returns the updated instruments, the per-instrument value cells (in
insertion order, `none` for a `NaN` cell), the month total, the dividend
cells and the dividend total.  An instrument not yet started, or whose
`simular_mes` raises, yields a `none` cell and is excluded from the
total. -/
def simularMesCarteira (pot : ℚ → ℚ) (mes : Data) :
    List (String × Investimento) →
    List (String × Investimento) × List (String × Option ℚ) × ℚ ×
      List (String × ℚ) × ℚ
  | [] => ([], [], 0, [], 0)
  | (nome, inv) :: t =>
      let passo :=
        if !(dataLt mes inv.data_inicio) then
          match simularMes pot inv mes with
          | .ok (inv', r) =>
              (inv', some r.valor, r.valor,
                if r.juros_pagos ∧ r.valor_juros_pagos > 0 then
                  some r.valor_juros_pagos
                else none)
          | .error _ => (inv, none, 0, none)
        else (inv, none, 0, none)
      let resto := simularMesCarteira pot mes t
      ((nome, passo.1) :: resto.1,
       (nome, passo.2.1) :: resto.2.1,
       passo.2.2.1 + resto.2.2.1,
       (match passo.2.2.2 with
        | some v => (nome, v) :: resto.2.2.2.1
        | none => resto.2.2.2.1),
       (match passo.2.2.2 with
        | some v => v
        | none => 0) + resto.2.2.2.2)

/-- The month loop of `Carteira.simular`, threading the mutated
instruments through the months and accumulating the monthly tables. -/
def simularCarteiraAux (pot : ℚ → ℚ) :
    List Data → List (String × Investimento) →
    List (String × Investimento) × List (Data × List (String × Option ℚ)) ×
      List (Data × ℚ) × List (Data × List (String × ℚ)) × ℚ
  | [], invs => (invs, [], [], [], 0)
  | mes :: resto, invs =>
      let m := simularMesCarteira pot mes invs
      let resultado_mes := m.2.1 ++ [("Total", some m.2.2.1)]
      let r := simularCarteiraAux pot resto m.1
      (r.1,
       (mes, resultado_mes) :: r.2.1,
       (mes, m.2.2.1) :: r.2.2.1,
       (if !m.2.2.2.1.isEmpty then
          (mes, m.2.2.2.1 ++ [("Total", m.2.2.2.2)]) :: r.2.2.2.1
        else r.2.2.2.1),
       m.2.2.2.2 + r.2.2.2.2)

/-- `Carteira.simular`: generates the shared month sequence, simulates each
instrument month by month, stores the consolidated result in the portfolio
and returns it. -/
def simularCarteira (pot : ℚ → ℚ) (c : Carteira) (data_inicio data_fim : Data) :
    Carteira × ResultadoCarteira :=
  let meses := gerarMeses data_inicio data_fim
  let r := simularCarteiraAux pot meses c.investimentos
  let resultado : ResultadoCarteira :=
    { data_inicio := data_inicio
      data_fim := data_fim
      investimentos := r.1
      resultado_mensal := r.2.1
      resultado_consolidado := r.2.2.1
      dividendos_recebidos := r.2.2.2.1
      total_dividendos := r.2.2.2.2 }
  ({ c with investimentos := r.1, resultado := some resultado }, resultado)

/-- The `Investimento.__init__` constructor (validation aside): stores the
configuration, initializes the mutable state, and pre-computes the fixed
`4.73%` coupon for `'PREFIXADO'` instruments with semiannual coupons. -/
def mkInvestimento (classe : Classe) (nome : String) (valor_principal : ℚ)
    (data_inicio data_fim : Data) (taxa : ℚ) (operador : Option Operador)
    (indexador : Option String) (moeda : String) (juros_semestrais : Bool)
    (ipca_padrao cdi_padrao : ℚ) (meses_pagamento_juros : Nat × Nat)
    (fonte_ipca : List (Data × ℚ)) : Investimento :=
  { classe := classe
    nome := nome
    valor_principal := valor_principal
    data_inicio := data_inicio
    data_fim := data_fim
    taxa := taxa
    operador := operador
    indexador := indexador
    moeda := moeda
    juros_semestrais := juros_semestrais
    ipca_padrao := ipca_padrao
    cdi_padrao := cdi_padrao
    meses_pagamento_juros := meses_pagamento_juros
    fonte_ipca := fonte_ipca
    valor_cupom_prefixado :=
      if indexador = some "PREFIXADO" ∧ juros_semestrais then
        valor_principal * ((473/100) / 100)
      else 0
    historico := []
    juros_acumulados := 0
    ultimo_pagamento_juros := none
    valor_corrigido := valor_principal
    principal_inflacionado := valor_principal }

/-- `InvestimentoIPCA.__init__`: indexador `'IPCA'`, operador `'+'`, rate
in decimal form, optional IPCA override source (`{}` when omitted). -/
def mkInvestimentoIPCA (nome : String) (valor_principal : ℚ)
    (data_inicio data_fim : Data) (taxa : ℚ) (moeda : String)
    (juros_semestrais : Bool) (fonte_ipca : List (Data × ℚ)) : Investimento :=
  mkInvestimento .ipca nome valor_principal data_inicio data_fim taxa
    (some .aditivo) (some "IPCA") moeda juros_semestrais 0 0 (1, 7) fonte_ipca

/-- `InvestimentoPrefixado.__init__`: note that it passes the indexador tag
`'Prefixado'`, which differs from the `'PREFIXADO'` tag tested by the base
class branches. -/
def mkInvestimentoPrefixado (nome : String) (valor_principal : ℚ)
    (data_inicio data_fim : Data) (taxa : ℚ) (moeda : String)
    (juros_semestrais : Bool) : Investimento :=
  mkInvestimento .prefixado nome valor_principal data_inicio data_fim taxa
    (some .aditivo) (some "Prefixado") moeda juros_semestrais 0 0 (1, 7) []

/-- `InvestimentoIPCA.definir_fonte_ipca`. -/
def definirFonteIpca (inv : Investimento) (fonte : List (Data × ℚ)) : Investimento :=
  { inv with fonte_ipca := fonte }

/-- `MotorSimulacao._copiar_carteira`, per instrument: `InvestimentoIPCA`
and `InvestimentoPrefixado` instances are rebuilt through their
constructors from name, principal, dates, rate, currency and coupon flag
(the IPCA override source is not passed along); any other instance goes
through the fallback `type(investimento)(...)` call with the same keyword
arguments, so a plain `Investimento` is rebuilt with default operador,
indexador, default index rates and coupon months. -/
def copiarInvestimento (inv : Investimento) : Investimento :=
  match inv.classe with
  | .ipca =>
      mkInvestimentoIPCA inv.nome inv.valor_principal inv.data_inicio
        inv.data_fim inv.taxa inv.moeda inv.juros_semestrais []
  | .prefixado =>
      mkInvestimentoPrefixado inv.nome inv.valor_principal inv.data_inicio
        inv.data_fim inv.taxa inv.moeda inv.juros_semestrais
  | .base =>
      mkInvestimento .base inv.nome inv.valor_principal inv.data_inicio
        inv.data_fim inv.taxa none none inv.moeda inv.juros_semestrais
        0 0 (1, 7) []

/-- `MotorSimulacao._copiar_carteira`. -/
def copiarCarteira (c : Carteira) : Carteira :=
  { nome := c.nome ++ " (cópia)"
    investimentos := c.investimentos.map (fun p => (p.2.nome, copiarInvestimento p.2))
    resultado := none }

/-- The dataclass `ConfiguracaoSimulacao` (the tax, fee and contribution
fields feed only the unimplemented no-op methods and are kept for
fidelity). -/
structure ConfiguracaoSimulacao where
  data_inicio : Data
  data_fim : Data
  impostos : Bool
  taxa_ir_renda_fixa : ℚ
  taxa_adm : ℚ
  intervalo_aporte : Option Nat
  valor_aporte : ℚ
  cenarios_ipca : List (String × List (Data × ℚ))
  cenarios_cdi : List (String × List (Data × ℚ))
  deriving DecidableEq, Repr

/-- The class `MotorSimulacao`; a stored scenario result is the monthly
table of the simulated portfolio. -/
structure MotorSimulacao where
  carteira : Carteira
  config : ConfiguracaoSimulacao
  resultados : List (String × List (Data × List (String × Option ℚ)))
  deriving Repr

/-- String-keyed association lookup. -/
def lookupS {α : Type} : List (String × α) → String → Option α
  | [], _ => none
  | (k, v) :: t, k' => if k' = k then some v else lookupS t k'

/-- String-keyed association store with dict overwrite semantics. -/
def updS {α : Type} : List (String × α) → String → α → List (String × α)
  | [], k, v => [(k, v)]
  | (k0, v0) :: t, k, v =>
      if k = k0 then (k0, v) :: t else (k0, v0) :: updS t k v

/-- `MotorSimulacao._aplicar_cenario`: when the scenario is present in
`cenarios_ipca`, inject that override map into every instrument exposing
`definir_fonte_ipca` (only `InvestimentoIPCA` does).  No class in this
revision exposes `definir_fonte_cdi`, so the CDI half never alters any
instrument. -/
def aplicarCenario (m : MotorSimulacao) (cenario : String) : MotorSimulacao :=
  match lookupS m.config.cenarios_ipca cenario with
  | none => m
  | some fonte =>
      { m with carteira :=
          { m.carteira with investimentos :=
              m.carteira.investimentos.map (fun p =>
                if p.2.classe = .ipca then (p.1, definirFonteIpca p.2 fonte)
                else p) } }

/-- `MotorSimulacao.simular`: applies the scenario overrides, runs the
portfolio simulation over the configured window (the tax, fee and
contribution hooks are no-ops in the source), stores the monthly table
keyed by scenario name and returns it. -/
def simularMotor (pot : ℚ → ℚ) (m : MotorSimulacao) (cenario : String) :
    MotorSimulacao × List (Data × List (String × Option ℚ)) :=
  let m1 := aplicarCenario m cenario
  let rc := simularCarteira pot m1.carteira m1.config.data_inicio m1.config.data_fim
  let df := rc.2.resultado_mensal
  ({ m1 with carteira := rc.1, resultados := updS m1.resultados cenario df }, df)

/-- `MotorSimulacao.simular_multiplos_cenarios`: for each scenario name,
clones the portfolio, runs a fresh motor on the clone, and stores the
resulting table both locally and in the calling motor. -/
def simularMultiplosCenarios (pot : ℚ → ℚ) (m : MotorSimulacao) :
    List String →
    MotorSimulacao × List (String × List (Data × List (String × Option ℚ)))
  | [] => (m, [])
  | cenario :: resto =>
      let clone := copiarCarteira m.carteira
      let motor_cenario : MotorSimulacao :=
        { carteira := clone, config := m.config, resultados := [] }
      let df := (simularMotor pot motor_cenario cenario).2
      let m' := { m with resultados := updS m.resultados cenario df }
      let r := simularMultiplosCenarios pot m' resto
      (r.1, (cenario, df) :: r.2)

/-- Sum of the defined (non-`NaN`) cells of a monthly row. -/
def somaDefinidos (cells : List (String × Option ℚ)) : ℚ :=
  (cells.filterMap (fun p => p.2)).sum

/-- Model of `math.pow (·, 1/12)` for the concrete runs below, which only
ever evaluate it at the base `(1.01)^12` (their annual rate is
`1.01^12 - 1`, chosen so that the 12th root is the exact rational `1.01`).
On that argument the constant is exact. -/
def pot112ex : ℚ → ℚ := fun _ => 101/100

/-- A constant stand-in for `math.pow (·, 1/12)` for runs whose code paths
never evaluate it. -/
def potConst : ℚ → ℚ := fun _ => 1

/-- Concrete `InvestimentoIPCA`: principal 1000, annual rate
`1.01^12 - 1` (monthly-equivalent exactly 1%), Jan 2023 to Feb 2023, no
semiannual coupons, no override source. -/
def invIpcaEx : Investimento :=
  mkInvestimentoIPCA "ipca" 1000 ⟨2023, 1, 1⟩ ⟨2023, 2, 1⟩
    ((101/100)^12 - 1) "BRL" false []

/-- Concrete base-class instrument with the `'PREFIXADO'` indexador tag:
principal 1000, annual rate (percentage points) `100 * (1.01^12 - 1)`
(monthly-equivalent exactly 1%), Jan 2023 to Jan 2026, no coupons. -/
def invPreEx : Investimento :=
  mkInvestimento .base "pre" 1000 ⟨2023, 1, 1⟩ ⟨2026, 1, 1⟩
    (100 * ((101/100)^12 - 1)) none (some "PREFIXADO") "R$" false 0 0 (1, 7) []

/-- Three consecutive monthly valuations of `invPreEx` (Jan, Feb, Mar
2023). -/
def runPreTresMeses : Except Unit (Investimento × ResultadoMensal) := do
  let p1 ← simularMes pot112ex invPreEx ⟨2023, 1, 1⟩
  let p2 ← simularMes pot112ex p1.1 ⟨2023, 2, 1⟩
  simularMes pot112ex p2.1 ⟨2023, 3, 1⟩

/-- Two consecutive monthly valuations of `invIpcaEx` (Jan 2023, then the
Feb 2023 maturity month). -/
def runIpcaVencimento : Except Unit (Investimento × ResultadoMensal) := do
  let p1 ← simularMes pot112ex invIpcaEx ⟨2023, 1, 1⟩
  simularMes pot112ex p1.1 ⟨2023, 2, 1⟩

/-- Zero-rate base-class instrument (no indexador, no operador). -/
def invZero : Investimento :=
  mkInvestimento .base "z" 1000 ⟨2023, 1, 1⟩ ⟨2025, 12, 1⟩ 0 none none
    "R$" false 0 0 (1, 7) []

/-- Zero-rate instrument starting later (Mar 2023). -/
def invZeroB : Investimento :=
  mkInvestimento .base "b" 500 ⟨2023, 3, 1⟩ ⟨2025, 12, 1⟩ 0 none none
    "R$" false 0 0 (1, 7) []

/-- Single-instrument portfolio holding `invZero`. -/
def cartZ : Carteira := { nome := "c", investimentos := [("z", invZero)], resultado := none }

/-- `cartZ` after a first simulation run over Jan-Feb 2023. -/
def cartZ1 : Carteira := (simularCarteira potConst cartZ ⟨2023, 1, 1⟩ ⟨2023, 2, 1⟩).1

/-- `cartZ1` after a second, fresh simulation run over Mar-Apr 2023. -/
def cartZ2 : Carteira := (simularCarteira potConst cartZ1 ⟨2023, 3, 1⟩ ⟨2023, 4, 1⟩).1

/-- Two-instrument portfolio with staggered start dates. -/
def cartDois : Carteira :=
  { nome := "c2", investimentos := [("z", invZero), ("b", invZeroB)], resultado := none }

/-- `invIpcaEx` with an explicitly injected IPCA override source. -/
def invIpcaFonte : Investimento :=
  definirFonteIpca invIpcaEx [(⟨2023, 2, 1⟩, 1/100)]

/-- Concrete `InvestimentoPrefixado` (subclass, `'Prefixado'` tag) with
semiannual coupons. -/
def invPreSub : Investimento :=
  mkInvestimentoPrefixado "ps" 1000 ⟨2023, 1, 1⟩ ⟨2026, 1, 1⟩
    ((101/100)^12 - 1) "BRL" true

/-- `invPreSub` with its inception snapshot already in the history. -/
def invPreSubH : Investimento :=
  { invPreSub with historico := [(invPreSub.data_inicio, resultadoInicial invPreSub)] }

/-- `invPreEx` with its inception snapshot already in the history. -/
def invPreExH : Investimento :=
  { invPreEx with historico := [(invPreEx.data_inicio, resultadoInicial invPreEx)] }

/-- A snapshot with a paid coupon of 5, used to exercise rentability. -/
def resCupomFev : ResultadoMensal :=
  { data := ⟨2023, 2, 1⟩, valor := 1005, valor_principal := 1000, juros := 10
    juros_acumulados := 0, indexador := some 0, taxa_mensal := some (1/100)
    juros_pagos := true, valor_juros_pagos := 5, valor_corrigido := 1000 }

/-- A hand-written two-entry history: inception plus a month with a paid
coupon. -/
def histDois : List (Data × ResultadoMensal) :=
  [(⟨2023, 1, 1⟩, resultadoInicial invPreEx), (⟨2023, 2, 1⟩, resCupomFev)]

/-- `invPreEx` carrying `histDois`. -/
def invHistDois : Investimento := { invPreEx with historico := histDois }

/-- Base-class instrument with semiannual coupons whose start date (Jan)
is one of its configured coupon months `(1, 7)`. -/
def invCupomInicio : Investimento :=
  mkInvestimento .base "w" 1000 ⟨2023, 1, 1⟩ ⟨2024, 1, 1⟩ 0 none none
    "R$" true 0 0 (1, 7) []

/-- Base-class (not subclass) instrument configured as `IPCA` + `ADITIVO`,
with the rate in percentage points as the base class expects. -/
def invIpcaBase : Investimento :=
  mkInvestimento .base "ib" 1000 ⟨2023, 1, 1⟩ ⟨2026, 1, 1⟩ 8
    (some .aditivo) (some "IPCA") "R$" false (1/20) 0 (1, 7) []

/-- Snapshot produced by the January 2023 (inception) valuation of
`invPreEx`. -/
def resPre1 : ResultadoMensal :=
  { data := ⟨2023, 1, 1⟩, valor := 1000, valor_principal := 1000, juros := 0
    juros_acumulados := 0, indexador := some 0, taxa_mensal := some 0
    juros_pagos := false, valor_juros_pagos := 0, valor_corrigido := 1000 }

/-- `invPreEx` after its January 2023 valuation. -/
def invPre1 : Investimento :=
  { invPreEx with valor_corrigido := 1000
                  principal_inflacionado := 1000
                  historico := [(⟨2023, 1, 1⟩, resPre1)] }

/-- Snapshot produced by the February 2023 valuation of `invPreEx`. -/
def resPre2 : ResultadoMensal :=
  { data := ⟨2023, 2, 1⟩, valor := 1010, valor_principal := 1000, juros := 10
    juros_acumulados := 10, indexador := some 0, taxa_mensal := some (1/100)
    juros_pagos := false, valor_juros_pagos := 0, valor_corrigido := 1000 }

/-- `invPreEx` after the January and February 2023 valuations. -/
def invPre2 : Investimento :=
  { invPre1 with historico := [(⟨2023, 1, 1⟩, resPre1), (⟨2023, 2, 1⟩, resPre2)] }

/-- Snapshot produced by the March 2023 valuation of `invPreEx`: interest
is again `10 = 1000 * 0.01`, computed on the principal, not on the grown
value `1010`. -/
def resPre3 : ResultadoMensal :=
  { data := ⟨2023, 3, 1⟩, valor := 1020, valor_principal := 1000, juros := 10
    juros_acumulados := 20, indexador := some 0, taxa_mensal := some (1/100)
    juros_pagos := false, valor_juros_pagos := 0, valor_corrigido := 1000 }

/-- `invPreEx` after the January-March 2023 valuations. -/
def invPre3 : Investimento :=
  { invPre1 with historico :=
      [(⟨2023, 1, 1⟩, resPre1), (⟨2023, 2, 1⟩, resPre2), (⟨2023, 3, 1⟩, resPre3)] }

/-- Snapshot of the January 2023 (inception) valuation of `invIpcaEx`. -/
def resIpca1 : ResultadoMensal :=
  { data := ⟨2023, 1, 1⟩, valor := 1000, valor_principal := 1000, juros := 0
    juros_acumulados := 0, indexador := some (1/250), taxa_mensal := some 0
    juros_pagos := false, valor_juros_pagos := 0, valor_corrigido := 1000 }

/-- `invIpcaEx` after its January 2023 valuation. -/
def invIpca1 : Investimento :=
  { invIpcaEx with valor_corrigido := 1000
                   principal_inflacionado := 1000
                   historico := [(⟨2023, 1, 1⟩, resIpca1)] }

/-- Snapshot of the February 2023 (maturity, coupons disabled) valuation of
`invIpcaEx`: the payout `127257/125 = 1018.056` is the inflated principal
`1004` plus the accrued interest `1757/125 = 14.056`, and the value is
zeroed. -/
def resIpca2 : ResultadoMensal :=
  { data := ⟨2023, 2, 1⟩, valor := 0, valor_principal := 1000, juros := 1757/125
    juros_acumulados := 0, indexador := some (1/250), taxa_mensal := some (7/500)
    juros_pagos := true, valor_juros_pagos := 127257/125, valor_corrigido := 1004 }

/-- `invIpcaEx` after the January and February 2023 valuations. -/
def invIpca2 : Investimento :=
  { invIpca1 with valor_corrigido := 1004
                  principal_inflacionado := 1004
                  historico := [(⟨2023, 1, 1⟩, resIpca1), (⟨2023, 2, 1⟩, resIpca2)] }

theorem dataEq_self (a : Data) : dataEq a a = true := by
  simp [dataEq]

theorem dataEq_iff {a b : Data} : dataEq a b = true ↔ a = b := by
  cases a; cases b
  simp [dataEq, Data.mk.injEq, and_assoc]

theorem dataLt_irrefl (a : Data) : dataLt a a = false := by
  simp [dataLt]

theorem lookupA_updA_self {α : Type} (l : List (Data × α)) (d : Data) (v : α) :
    lookupA (updA l d v) d = some v := by
  induction l with
  | nil => simp [updA, lookupA, dataEq_self]
  | cons h t ih =>
      by_cases hd : dataEq d h.1 = true
      · simp [updA, hd, lookupA]
      · simp only [updA]
        rw [if_neg (by simp [hd])]
        simp [lookupA, hd, ih]

theorem lookupA_updA_of_ne {α : Type} (l : List (Data × α)) (d d' : Data) (v : α)
    (h : dataEq d' d = false) : lookupA (updA l d v) d' = lookupA l d' := by
  induction l with
  | nil => simp [updA, lookupA, h]
  | cons p t ih =>
      by_cases hd : dataEq d p.1 = true
      · have hne : dataEq d' p.1 = false := by
          rcases dataEq_iff.mp hd with rfl
          exact h
        simp [updA, hd, lookupA, hne]
      · simp only [updA]
        rw [if_neg (by simp [hd])]
        by_cases hd' : dataEq d' p.1 = true
        · simp [lookupA, hd']
        · simp [lookupA, hd', ih]

theorem mem_updA {α : Type} {l : List (Data × α)} {d : Data} {v : α} {p : Data × α}
    (hp : p ∈ updA l d v) : p = (d, v) ∨ p ∈ l := by
  induction l with
  | nil => simpa [updA] using hp
  | cons q t ih =>
      by_cases hd : dataEq d q.1 = true
      · rcases dataEq_iff.mp hd with rfl
        simp only [updA, dataEq_self, if_pos] at hp
        rcases List.mem_cons.mp hp with h | h
        · left; rw [h]
        · right; exact List.mem_cons_of_mem _ h
      · simp only [updA] at hp
        rw [if_neg (by simp [hd])] at hp
        rcases List.mem_cons.mp hp with h | h
        · right; exact h ▸ List.mem_cons_self _ _
        · rcases ih h with h' | h'
          · left; exact h'
          · right; exact List.mem_cons_of_mem _ h'

theorem lookupA_ne_nil {α : Type} {l : List (Data × α)} {d : Data} {v : α}
    (h : lookupA l d = some v) : l.isEmpty = false := by
  cases l with
  | nil => simp [lookupA] at h
  | cons p t => rfl

theorem passoCupom_juros_mes (p : Passo) (d : Data) :
    (passoCupom p d).juros_mes = p.juros_mes := by
  simp only [passoCupom]
  repeat' split
  all_goals rfl

theorem passoCupom_taxa_mensal (p : Passo) (d : Data) :
    (passoCupom p d).taxa_mensal = p.taxa_mensal := by
  simp only [passoCupom]
  repeat' split
  all_goals rfl

theorem passoCupom_inv_historico (p : Passo) (d : Data) :
    (passoCupom p d).inv.historico = p.inv.historico := by
  simp only [passoCupom]
  repeat' split
  all_goals rfl

theorem passoCupom_inv_valor_principal (p : Passo) (d : Data) :
    (passoCupom p d).inv.valor_principal = p.inv.valor_principal := by
  simp only [passoCupom]
  repeat' split
  all_goals rfl

theorem passoCupom_inv_principal_inflacionado (p : Passo) (d : Data) :
    (passoCupom p d).inv.principal_inflacionado = p.inv.principal_inflacionado := by
  simp only [passoCupom]
  repeat' split
  all_goals rfl

theorem passoCupom_eq_or_pagos (p : Passo) (d : Data) :
    passoCupom p d = p ∨ (passoCupom p d).juros_pagos = true := by
  simp only [passoCupom]
  repeat' split
  all_goals first
  | exact Or.inl rfl
  | exact Or.inr rfl

theorem passoCupom_of_juros_pagos_false (p : Passo) (d : Data)
    (h : (passoCupom p d).juros_pagos = false) : passoCupom p d = p := by
  rcases passoCupom_eq_or_pagos p d with h' | h'
  · exact h'
  · rw [h'] at h
    exact absurd h (by simp)

/-- C9.  `simular_mes` fails exactly on dates before the instrument's
start date; every other date — the start date itself and any later date,
including dates strictly after maturity — is accepted, and the returned
snapshot is stored in the history under the requested date. -/
theorem simularMes_erro_iff (pot : ℚ → ℚ) (inv : Investimento) (d : Data) :
    (dataLt d inv.data_inicio = true → simularMes pot inv d = .error ()) ∧
    (dataLt d inv.data_inicio = false →
      ∃ inv' r, simularMes pot inv d = .ok (inv', r) ∧
        lookupA inv'.historico d = some r) := by
  constructor
  · intro h
    simp [simularMes, h]
  · intro h
    simp only [simularMes, h, Bool.false_eq_true, if_false]
    exact ⟨_, _, rfl, lookupA_updA_self _ _ _⟩

/-- Witness for C9 at concrete inputs: December 2022 precedes the start of
`invPreEx` and is rejected; January 2026 is past nothing but after the
start, and is accepted with a stored snapshot. -/
theorem simularMes_erro_iff_witness :
    (dataLt ⟨2022, 12, 1⟩ invPreEx.data_inicio = true ∧
      simularMes potConst invPreEx ⟨2022, 12, 1⟩ = .error ()) ∧
    (dataLt ⟨2024, 5, 1⟩ invPreEx.data_inicio = false ∧
      ∃ inv' r, simularMes potConst invPreEx ⟨2024, 5, 1⟩ = .ok (inv', r) ∧
        lookupA inv'.historico ⟨2024, 5, 1⟩ = some r) :=
  ⟨⟨by decide, (simularMes_erro_iff potConst invPreEx ⟨2022, 12, 1⟩).1 (by decide)⟩,
   ⟨by decide, (simularMes_erro_iff potConst invPreEx ⟨2024, 5, 1⟩).2 (by decide)⟩⟩

theorem passoAcumulacao_juros_pagos (pot : ℚ → ℚ) (inv : Investimento) (d : Data) :
    (passoAcumulacao pot inv d).juros_pagos = false := by
  simp only [passoAcumulacao]
  split
  all_goals rfl

theorem passoAcumulacao_valor_juros_pagos (pot : ℚ → ℚ) (inv : Investimento) (d : Data) :
    (passoAcumulacao pot inv d).valor_juros_pagos = 0 := by
  simp only [passoAcumulacao]
  split
  all_goals rfl

theorem passoAcumulacao_inv_data_inicio (pot : ℚ → ℚ) (inv : Investimento) (d : Data) :
    (passoAcumulacao pot inv d).inv.data_inicio = inv.data_inicio := by
  simp only [passoAcumulacao]
  repeat' split
  all_goals rfl

theorem passoAcumulacao_inv_juros_semestrais (pot : ℚ → ℚ) (inv : Investimento) (d : Data) :
    (passoAcumulacao pot inv d).inv.juros_semestrais = inv.juros_semestrais := by
  simp only [passoAcumulacao]
  repeat' split
  all_goals rfl

theorem passoAcumulacao_inv_data_fim (pot : ℚ → ℚ) (inv : Investimento) (d : Data) :
    (passoAcumulacao pot inv d).inv.data_fim = inv.data_fim := by
  simp only [passoAcumulacao]
  repeat' split
  all_goals rfl

theorem passoAcumulacao_inv_indexador (pot : ℚ → ℚ) (inv : Investimento) (d : Data) :
    (passoAcumulacao pot inv d).inv.indexador = inv.indexador := by
  simp only [passoAcumulacao]
  repeat' split
  all_goals rfl

theorem passoAcumulacao_inv_operador (pot : ℚ → ℚ) (inv : Investimento) (d : Data) :
    (passoAcumulacao pot inv d).inv.operador = inv.operador := by
  simp only [passoAcumulacao]
  repeat' split
  all_goals rfl

theorem passoAcumulacao_inv_valor_principal (pot : ℚ → ℚ) (inv : Investimento) (d : Data) :
    (passoAcumulacao pot inv d).inv.valor_principal = inv.valor_principal := by
  simp only [passoAcumulacao]
  repeat' split
  all_goals rfl

theorem passoAcumulacao_inv_taxa (pot : ℚ → ℚ) (inv : Investimento) (d : Data) :
    (passoAcumulacao pot inv d).inv.taxa = inv.taxa := by
  simp only [passoAcumulacao]
  repeat' split
  all_goals rfl

theorem passoCupom_no_inicio (p : Passo) (d : Data)
    (hd : dataEq d p.inv.data_inicio = true)
    (hjs : p.inv.juros_semestrais = true) : passoCupom p d = p := by
  simp only [passoCupom]
  rw [if_neg (by simp [hd]), if_neg (by simp [hjs])]

/-- C10.  For an instrument with semiannual coupons enabled whose start
date falls in one of the configured coupon-payment months, simulating the
inception month pays no coupon: the snapshot has `juros_pagos = false` and
`valor_juros_pagos = 0`. -/
theorem simularMes_inicio_sem_cupom (pot : ℚ → ℚ) (inv : Investimento)
    (hjs : inv.juros_semestrais = true)
    (_hmes : inv.data_inicio.mes = inv.meses_pagamento_juros.1 ∨
      inv.data_inicio.mes = inv.meses_pagamento_juros.2) :
    ∃ inv' r, simularMes pot inv inv.data_inicio = .ok (inv', r) ∧
      r.juros_pagos = false ∧ r.valor_juros_pagos = 0 := by
  have hlt := dataLt_irrefl inv.data_inicio
  simp only [simularMes, hlt, Bool.false_eq_true, if_false]
  have hcup : passoCupom (passoAcumulacao pot inv inv.data_inicio) inv.data_inicio
      = passoAcumulacao pot inv inv.data_inicio :=
    passoCupom_no_inicio _ _
      (by rw [passoAcumulacao_inv_data_inicio]; exact dataEq_self _)
      (by rw [passoAcumulacao_inv_juros_semestrais]; exact hjs)
  refine ⟨_, _, rfl, ?_, ?_⟩
  · simp [montarResultado, hcup, passoAcumulacao_juros_pagos]
  · simp [montarResultado, hcup, passoAcumulacao_valor_juros_pagos]

/-- Witness for C10: `invCupomInicio` has semiannual coupons, starts in
January and pays coupons in months (1, 7); its inception snapshot carries
no coupon. -/
theorem simularMes_inicio_sem_cupom_witness :
    invCupomInicio.juros_semestrais = true ∧
    invCupomInicio.data_inicio.mes = invCupomInicio.meses_pagamento_juros.1 ∧
    ∃ inv' r, simularMes potConst invCupomInicio invCupomInicio.data_inicio = .ok (inv', r) ∧
      r.juros_pagos = false ∧ r.valor_juros_pagos = 0 :=
  ⟨by decide, by decide,
   simularMes_inicio_sem_cupom potConst invCupomInicio (by decide) (Or.inl (by decide))⟩

/-- C1 (amended).  The base-class monthly-rate operation, on an
inflation-linked additive instrument, returns the product formula
`(1 + monthly_inflation) * (1 + monthly_real_rate) - 1` with
`monthly_real_rate = (1 + taxa/100) ** (1/12) - 1`; the `InvestimentoIPCA`
override instead returns the additive approximation
`monthly_inflation + monthly_real_rate` with
`monthly_real_rate = (1 + taxa) ** (1/12) - 1`. -/
theorem obterTaxaMensal_ipca_formula (pot : ℚ → ℚ) (inv : Investimento) (d : Data) :
    (inv.classe = .base → inv.indexador = some "IPCA" →
      inv.operador = some .aditivo →
      obterTaxaMensal pot inv d =
        (1 + obterValorIndexador pot inv d) * (1 + (pot (1 + inv.taxa / 100) - 1)) - 1) ∧
    (inv.classe = .ipca →
      obterTaxaMensal pot inv d =
        obterValorIndexador pot inv d + (pot (1 + inv.taxa) - 1)) := by
  constructor
  · intro hc hi ho
    simp only [obterTaxaMensal, hc, hi, ho]
    rw [if_neg (by simp), if_pos (by simp)]
  · intro hc
    simp only [obterTaxaMensal, hc]

/-- Counterexample to C1 as stated: for the concrete `InvestimentoIPCA`
instrument `invIpcaEx` (monthly inflation `0.004`, monthly real rate
exactly `0.01`), the monthly-rate operation returns `0.014`, while the
claimed product formula gives `0.01404`. -/
theorem obterTaxaMensal_ipca_contraexemplo :
    obterTaxaMensal pot112ex invIpcaEx ⟨2023, 2, 1⟩ = 7/500 ∧
    (1 + obterValorIndexador pot112ex invIpcaEx ⟨2023, 2, 1⟩) *
        (1 + (pot112ex (1 + invIpcaEx.taxa) - 1)) - 1 = 351/25000 ∧
    (7/500 : ℚ) ≠ 351/25000 := by
  refine ⟨?_, ?_, by norm_num⟩
  · norm_num [obterTaxaMensal, obterValorIndexador, invIpcaEx, mkInvestimentoIPCA,
      mkInvestimento, pot112ex, lookupA]
  · norm_num [obterValorIndexador, invIpcaEx, mkInvestimentoIPCA,
      mkInvestimento, pot112ex, lookupA]

/-- Witness for C1: the base-class product formula at the concrete
base-class instrument `invIpcaBase`, and the subclass additive formula at
`invIpcaEx`. -/
theorem obterTaxaMensal_ipca_formula_witness :
    (obterTaxaMensal potConst invIpcaBase ⟨2023, 2, 1⟩ =
      (1 + obterValorIndexador potConst invIpcaBase ⟨2023, 2, 1⟩) *
        (1 + (potConst (1 + invIpcaBase.taxa / 100) - 1)) - 1) ∧
    (obterTaxaMensal potConst invIpcaEx ⟨2023, 2, 1⟩ =
      obterValorIndexador potConst invIpcaEx ⟨2023, 2, 1⟩ +
        (potConst (1 + invIpcaEx.taxa) - 1)) :=
  ⟨(obterTaxaMensal_ipca_formula potConst invIpcaBase ⟨2023, 2, 1⟩).1 rfl rfl rfl,
   (obterTaxaMensal_ipca_formula potConst invIpcaEx ⟨2023, 2, 1⟩).2 rfl⟩

theorem str_pref_ne_ipca : (("PREFIXADO" : String) = "IPCA") = False :=
  eq_false (by decide)

theorem str_pref_ne_cdi : (("PREFIXADO" : String) = "CDI") = False :=
  eq_false (by decide)

theorem str_sub_ne_pref : (("Prefixado" : String) = "PREFIXADO") = False :=
  eq_false (by decide)

theorem str_sub_ne_ipca : (("Prefixado" : String) = "IPCA") = False :=
  eq_false (by decide)

theorem str_sub_ne_cdi : (("Prefixado" : String) = "CDI") = False :=
  eq_false (by decide)

theorem str_ipca_ne_pref : (("IPCA" : String) = "PREFIXADO") = False :=
  eq_false (by decide)

theorem str_ipca_ne_cdi : (("IPCA" : String) = "CDI") = False :=
  eq_false (by decide)

theorem opt_pref_ne_ipca : ((some "PREFIXADO" : Option String) = some "IPCA") = False :=
  eq_false (by decide)

theorem opt_pref_ne_cdi : ((some "PREFIXADO" : Option String) = some "CDI") = False :=
  eq_false (by decide)

theorem opt_sub_ne_pref : ((some "Prefixado" : Option String) = some "PREFIXADO") = False :=
  eq_false (by decide)

theorem opt_sub_ne_ipca : ((some "Prefixado" : Option String) = some "IPCA") = False :=
  eq_false (by decide)

theorem opt_sub_ne_cdi : ((some "Prefixado" : Option String) = some "CDI") = False :=
  eq_false (by decide)

theorem opt_ipca_ne_pref : ((some "IPCA" : Option String) = some "PREFIXADO") = False :=
  eq_false (by decide)

theorem passoAcumulacao_juros_mes_pref_base (pot : ℚ → ℚ) (inv : Investimento)
    (data : Data) (hne : dataEq data inv.data_inicio = false)
    (hi : inv.indexador = some "PREFIXADO") :
    (passoAcumulacao pot inv data).juros_mes =
      inv.valor_principal * (pot (1 + inv.taxa / 100) - 1) := by
  simp only [passoAcumulacao, hne, Bool.false_eq_true, if_false]
  cases h : inv.historico with
  | nil => simp [hi, opt_pref_ne_ipca, str_pref_ne_ipca, str_pref_ne_cdi]
  | cons a t => simp [hi, opt_pref_ne_ipca, str_pref_ne_ipca, str_pref_ne_cdi]

theorem passoAcumulacao_juros_mes_pref_sub (pot : ℚ → ℚ) (inv : Investimento)
    (data : Data) (du : Data) (u : ResultadoMensal)
    (hne : dataEq data inv.data_inicio = false)
    (hc : inv.classe = .prefixado)
    (hi : inv.indexador = some "Prefixado")
    (hu : ultimoResultado inv.historico = some (du, u)) :
    (passoAcumulacao pot inv data).juros_mes = u.valor * (pot (1 + inv.taxa) - 1) := by
  have hnil : inv.historico.isEmpty = false := by
    cases h : inv.historico with
    | nil => rw [h] at hu; simp [ultimoResultado] at hu
    | cons a t => rfl
  simp only [passoAcumulacao, hne, Bool.false_eq_true, if_false, hnil, hu,
    Option.getD_some]
  simp [hi, opt_sub_ne_ipca, opt_sub_ne_pref, obterTaxaMensal, hc]

/-- C2 (amended).  For base-class fixed-rate instruments (indexador tag
`'PREFIXADO'`), the month's interest is the original principal times the
monthly-equivalent rate regardless of the semiannual-coupon flag — the
no-coupon case does not compound on the running value.  The
`InvestimentoPrefixado` subclass (tag `'Prefixado'`), by contrast, always
computes interest on the previous month's running value. -/
theorem simularMes_juros_prefixado (pot : ℚ → ℚ) (inv : Investimento) (data : Data)
    (hnl : dataLt data inv.data_inicio = false)
    (hne : dataEq data inv.data_inicio = false) :
    (inv.indexador = some "PREFIXADO" →
      ∃ inv' r, simularMes pot inv data = .ok (inv', r) ∧
        r.juros = inv.valor_principal * (pot (1 + inv.taxa / 100) - 1)) ∧
    (∀ du u, inv.classe = .prefixado → inv.indexador = some "Prefixado" →
      ultimoResultado inv.historico = some (du, u) →
      ∃ inv' r, simularMes pot inv data = .ok (inv', r) ∧
        r.juros = u.valor * (pot (1 + inv.taxa) - 1)) := by
  constructor
  · intro hi
    simp only [simularMes, hnl, Bool.false_eq_true, if_false]
    refine ⟨_, _, rfl, ?_⟩
    show (passoCupom (passoAcumulacao pot inv data) data).juros_mes = _
    rw [passoCupom_juros_mes]
    exact passoAcumulacao_juros_mes_pref_base pot inv data hne hi
  · intro du u hc hi hu
    simp only [simularMes, hnl, Bool.false_eq_true, if_false]
    refine ⟨_, _, rfl, ?_⟩
    show (passoCupom (passoAcumulacao pot inv data) data).juros_mes = _
    rw [passoCupom_juros_mes]
    exact passoAcumulacao_juros_mes_pref_sub pot inv data du u hne hc hi hu

/-- Counterexample to C2 as stated: in the no-coupon case the interest does
NOT compound on the running value.  Three months of `invPreEx` (semiannual
coupons disabled, monthly rate exactly 1%): February's value is 1010, yet
March's interest is 10 = 1000 × 1%, not 10.1 = 1010 × 1%. -/
theorem simularMes_juros_prefixado_contraexemplo :
    simularMes pot112ex invPreEx ⟨2023, 1, 1⟩ = .ok (invPre1, resPre1) ∧
    simularMes pot112ex invPre1 ⟨2023, 2, 1⟩ = .ok (invPre2, resPre2) ∧
    simularMes pot112ex invPre2 ⟨2023, 3, 1⟩ = .ok (invPre3, resPre3) ∧
    invPreEx.juros_semestrais = false ∧
    resPre3.juros ≠ resPre2.valor * obterTaxaMensal pot112ex invPre2 ⟨2023, 3, 1⟩ := by
  refine ⟨?_, ?_, ?_, by decide, ?_⟩
  · norm_num [simularMes, passoAcumulacao, passoCupom, montarResultado, invPreEx,
      mkInvestimento, obterTaxaMensal, obterValorIndexador, calcularValorCupom,
      ehMesPagamentoJuros, resultadoInicial, pot112ex, dataLt, dataEq, updA, lookupA,
      ultimoResultado, invPre1, resPre1, opt_pref_ne_ipca, str_pref_ne_ipca, str_pref_ne_cdi, opt_pref_ne_cdi]
  · norm_num [simularMes, passoAcumulacao, passoCupom, montarResultado, invPreEx,
      mkInvestimento, obterTaxaMensal, obterValorIndexador, calcularValorCupom,
      ehMesPagamentoJuros, resultadoInicial, pot112ex, dataLt, dataEq, updA, lookupA,
      ultimoResultado, invPre1, invPre2, resPre1, resPre2, opt_pref_ne_ipca, str_pref_ne_ipca, str_pref_ne_cdi,
      opt_pref_ne_cdi]
  · norm_num [simularMes, passoAcumulacao, passoCupom, montarResultado, invPreEx,
      mkInvestimento, obterTaxaMensal, obterValorIndexador, calcularValorCupom,
      ehMesPagamentoJuros, resultadoInicial, pot112ex, dataLt, dataEq, updA, lookupA,
      ultimoResultado, invPre1, invPre2, invPre3, resPre1, resPre2, resPre3,
      opt_pref_ne_ipca, str_pref_ne_ipca, str_pref_ne_cdi, opt_pref_ne_cdi]
  · norm_num [obterTaxaMensal, invPre2, invPre1, invPreEx, mkInvestimento,
      pot112ex, resPre2, resPre3, opt_pref_ne_ipca, str_pref_ne_ipca, str_pref_ne_cdi]

/-- Witness for C2: the base-class half at `invPre1` in February 2023, and
the subclass half at `invPreSubH` (an `InvestimentoPrefixado` with its
inception snapshot in the history) in February 2023. -/
theorem simularMes_juros_prefixado_witness :
    (∃ inv' r, simularMes pot112ex invPre1 ⟨2023, 2, 1⟩ = .ok (inv', r) ∧
      r.juros = invPre1.valor_principal * (pot112ex (1 + invPre1.taxa / 100) - 1)) ∧
    (∃ inv' r, simularMes pot112ex invPreSubH ⟨2023, 2, 1⟩ = .ok (inv', r) ∧
      r.juros = (resultadoInicial invPreSub).valor * (pot112ex (1 + invPreSubH.taxa) - 1)) :=
  ⟨(simularMes_juros_prefixado pot112ex invPre1 ⟨2023, 2, 1⟩ (by decide) (by decide)).1 rfl,
   (simularMes_juros_prefixado pot112ex invPreSubH ⟨2023, 2, 1⟩ (by decide) (by decide)).2
     invPreSub.data_inicio (resultadoInicial invPreSub) rfl rfl rfl⟩

theorem primeiroDoMes_eq (ano mes : Nat) (h1 : 1 ≤ mes) (h2 : mes ≤ 12) :
    primeiroDoMes (12 * ano + (mes - 1)) = ⟨ano, mes, 1⟩ := by
  simp only [primeiroDoMes, Data.mk.injEq]
  refine ⟨by omega, by omega, trivial⟩

theorem dataLt_primeiroDoMes_iff (idx : Nat) (fim : Data)
    (hm1 : 1 ≤ fim.mes) (hm2 : fim.mes ≤ 12) (hd : 1 ≤ fim.dia) :
    dataLt (primeiroDoMes idx) fim = true ↔ idx < idxParada fim := by
  simp only [dataLt, primeiroDoMes, mesIdx, idxParada, Bool.or_eq_true,
    Bool.and_eq_true, decide_eq_true_eq, beq_iff_eq]
  split
  all_goals omega

theorem gerarMesesAux_spec (fim : Data) (hm1 : 1 ≤ fim.mes) (hm2 : fim.mes ≤ 12)
    (hd : 1 ≤ fim.dia) :
    ∀ fuel ano mes, 1 ≤ mes → mes ≤ 12 →
      idxParada fim ≤ 12 * ano + (mes - 1) + fuel →
      gerarMesesAux fim fuel ano mes =
        (List.range (idxParada fim - (12 * ano + (mes - 1)))).map
          (fun k => primeiroDoMes (12 * ano + (mes - 1) + 1 + k)) := by
  intro fuel
  induction fuel with
  | zero =>
      intro ano mes h1 h2 hle
      have hz : idxParada fim - (12 * ano + (mes - 1)) = 0 := by omega
      simp [gerarMesesAux, hz]
  | succ n ih =>
      intro ano mes h1 h2 hle
      have hP : primeiroDoMes (12 * ano + (mes - 1)) = ⟨ano, mes, 1⟩ :=
        primeiroDoMes_eq ano mes h1 h2
      have hlt := dataLt_primeiroDoMes_iff (12 * ano + (mes - 1)) fim hm1 hm2 hd
      rw [hP] at hlt
      by_cases hc : dataLt ⟨ano, mes, 1⟩ fim = true
      · have hidx : 12 * ano + (mes - 1) < idxParada fim := hlt.mp hc
        have hsub : idxParada fim - (12 * ano + (mes - 1)) =
            (idxParada fim - (12 * ano + (mes - 1) + 1)) + 1 := by omega
        by_cases h12 : mes + 1 > 12
        · have hm : mes = 12 := by omega
          have hstep : 12 * (ano + 1) + (1 - 1) = 12 * ano + (mes - 1) + 1 := by omega
          simp only [gerarMesesAux, hc, if_true, proximoMes, h12, if_pos]
          rw [ih (ano + 1) 1 (by omega) (by omega) (by omega), hstep, hsub,
            List.range_succ_eq_map, List.map_cons, List.map_map]
          congr 1
          · have h0 : 12 * ano + (mes - 1) + 1 + 0 = 12 * (ano + 1) + (1 - 1) := by omega
            rw [h0, primeiroDoMes_eq (ano + 1) 1 (by omega) (by omega)]
          · apply List.map_congr_left
            intro k _
            simp only [Function.comp_apply, Nat.succ_eq_add_one]
            congr 1
            omega
        · have hstep : 12 * ano + ((mes + 1) - 1) = 12 * ano + (mes - 1) + 1 := by omega
          simp only [gerarMesesAux, hc, if_true, proximoMes, h12, if_neg, if_false]
          rw [ih ano (mes + 1) (by omega) (by omega) (by omega), hstep, hsub,
            List.range_succ_eq_map, List.map_cons, List.map_map]
          congr 1
          · have h0 : 12 * ano + (mes - 1) + 1 + 0 = 12 * ano + ((mes + 1) - 1) := by omega
            rw [h0, primeiroDoMes_eq ano (mes + 1) (by omega) (by omega)]
          · apply List.map_congr_left
            intro k _
            simp only [Function.comp_apply, Nat.succ_eq_add_one]
            congr 1
            omega
      · have hge : idxParada fim ≤ 12 * ano + (mes - 1) := by
          rcases Nat.lt_or_ge (12 * ano + (mes - 1)) (idxParada fim) with h | h
          · exact absurd (hlt.mpr h) hc
          · exact h
        have hz : idxParada fim - (12 * ano + (mes - 1)) = 0 := by omega
        simp [gerarMesesAux, hc, hz]

/-- C3 (amended).  The month-sequence generator returns the first-of-month
dates of the consecutive months starting at month(D0) and ending at the
first month whose month-start is on or after D1: through month(D1)
inclusive when D1 is the first day of its month, but one month PAST
month(D1) when D1 falls later in its month (and just [month(D0)] when
month-start(D0) is already on or after D1). -/
theorem gerarMeses_caracterizacao (d0 fim : Data)
    (h01 : 1 ≤ d0.mes) (h02 : d0.mes ≤ 12)
    (hm1 : 1 ≤ fim.mes) (hm2 : fim.mes ≤ 12) (hd : 1 ≤ fim.dia) :
    gerarMeses d0 fim =
      (List.range (max (mesIdx d0) (idxParada fim) + 1 - mesIdx d0)).map
        (fun k => primeiroDoMes (mesIdx d0 + k)) := by
  have hfuel : idxParada fim ≤ 12 * d0.ano + (d0.mes - 1) +
      (12 * fim.ano + fim.mes + 1 - (12 * d0.ano + d0.mes)) := by
    simp only [idxParada, mesIdx]
    split
    all_goals omega
  unfold gerarMeses
  rw [gerarMesesAux_spec fim hm1 hm2 hd _ d0.ano d0.mes h01 h02 hfuel]
  have hmax : max (mesIdx d0) (idxParada fim) + 1 - mesIdx d0 =
      (idxParada fim - (12 * d0.ano + (d0.mes - 1))) + 1 := by
    simp only [mesIdx]
    omega
  rw [hmax, List.range_succ_eq_map, List.map_cons, List.map_map]
  congr 1
  · have h0 : mesIdx d0 + 0 = 12 * d0.ano + (d0.mes - 1) := by simp [mesIdx]
    rw [h0, primeiroDoMes_eq d0.ano d0.mes h01 h02]
  · apply List.map_congr_left
    intro k _
    simp only [Function.comp_apply, Nat.succ_eq_add_one, mesIdx]
    congr 1
    omega

/-- Counterexample to C3 as stated: for D0 = 2023-05-01 and
D1 = 2023-05-15 the generator returns [2023-05-01, 2023-06-01]; the second
entry lies in a month strictly after month(D1) = May 2023. -/
theorem gerarMeses_contraexemplo :
    gerarMeses ⟨2023, 5, 1⟩ ⟨2023, 5, 15⟩ = [⟨2023, 5, 1⟩, ⟨2023, 6, 1⟩] ∧
    mesIdx ⟨2023, 5, 15⟩ < mesIdx ⟨2023, 6, 1⟩ := by
  constructor
  · decide
  · decide

/-- Witness for C3 at D0 = 2023-11-03, D1 = 2024-02-01: the characterized
output is [2023-11-01, 2023-12-01, 2024-01-01, 2024-02-01]. -/
theorem gerarMeses_caracterizacao_witness :
    gerarMeses ⟨2023, 11, 3⟩ ⟨2024, 2, 1⟩ =
      (List.range (max (mesIdx ⟨2023, 11, 3⟩) (idxParada ⟨2024, 2, 1⟩) + 1 -
          mesIdx ⟨2023, 11, 3⟩)).map
        (fun k => primeiroDoMes (mesIdx ⟨2023, 11, 3⟩ + k)) ∧
    gerarMeses ⟨2023, 11, 3⟩ ⟨2024, 2, 1⟩ =
      [⟨2023, 11, 1⟩, ⟨2023, 12, 1⟩, ⟨2024, 1, 1⟩, ⟨2024, 2, 1⟩] :=
  ⟨gerarMeses_caracterizacao ⟨2023, 11, 3⟩ ⟨2024, 2, 1⟩ (by decide) (by decide)
      (by decide) (by decide) (by decide),
   by decide⟩

theorem ultimoResultado_ne_nil {l : List (Data × ResultadoMensal)}
    {x : Data × ResultadoMensal} (hu : ultimoResultado l = some x) :
    l.isEmpty = false := by
  cases l with
  | nil => simp [ultimoResultado] at hu
  | cons a t => rfl

theorem passoAcumulacao_acc (pot : ℚ → ℚ) (inv : Investimento) (data : Data)
    (du : Data) (u : ResultadoMensal)
    (hne : dataEq data inv.data_inicio = false)
    (hu : ultimoResultado inv.historico = some (du, u))
    (hjs : inv.juros_semestrais = false) :
    (passoAcumulacao pot inv data).juros_acumulados =
      u.juros_acumulados + (passoAcumulacao pot inv data).juros_mes ∧
    (passoAcumulacao pot inv data).valor_atual =
      u.valor + (passoAcumulacao pot inv data).juros_mes := by
  have hnil : inv.historico.isEmpty = false := ultimoResultado_ne_nil hu
  simp only [passoAcumulacao, hne, Bool.false_eq_true, if_false, hnil, hu,
    Option.getD_some]
  by_cases hip : inv.indexador = some "IPCA" ∧ inv.operador = some Operador.aditivo
  · simp [hip, hjs]
  · simp [hip, hjs]

theorem passoCupom_sem_evento (p : Passo) (d : Data)
    (hjs : p.inv.juros_semestrais = false)
    (hv : (d.ano == p.inv.data_fim.ano && d.mes == p.inv.data_fim.mes) = false) :
    passoCupom p d = p := by
  simp only [passoCupom]
  rw [if_neg (by simp [hjs]), if_neg (by simp [hv])]

theorem passoCupom_vencimento_sem_cupom (p : Passo) (d : Data)
    (hjs : p.inv.juros_semestrais = false)
    (hv : (d.ano == p.inv.data_fim.ano && d.mes == p.inv.data_fim.mes) = true) :
    passoCupom p d =
      if p.inv.indexador = some "IPCA" ∧ p.inv.operador = some Operador.aditivo then
        { p with juros_pagos := true
                 valor_juros_pagos := p.inv.principal_inflacionado + p.juros_acumulados
                 valor_atual := 0
                 juros_acumulados := 0 }
      else
        { p with juros_pagos := true
                 valor_juros_pagos := p.valor_atual
                 valor_atual := 0
                 juros_acumulados := 0 } := by
  simp only [passoCupom]
  rw [if_neg (by simp [hjs]), if_pos (by simp [hv, hjs])]

/-- C4 (amended).  With semiannual coupons disabled, non-maturity months
maintain the accrual invariant `value = original principal + accrued
interest`; simulating the maturity month sets the stored value to zero and
pays out the pre-payout running value — equal to original principal plus
all unpaid accrued interest for non-inflation-linked instruments, but for
inflation-linked additive instruments the payout is the
inflation-corrected principal plus all accrued interest (which differs
from principal + interest whenever inflation is nonzero). -/
theorem simularMes_vencimento_sem_cupom (pot : ℚ → ℚ) (inv : Investimento)
    (data : Data) (du : Data) (u : ResultadoMensal)
    (hjs : inv.juros_semestrais = false)
    (hnl : dataLt data inv.data_inicio = false)
    (hne : dataEq data inv.data_inicio = false)
    (hu : ultimoResultado inv.historico = some (du, u))
    (hval : u.valor = inv.valor_principal + u.juros_acumulados) :
    (((data.ano == inv.data_fim.ano && data.mes == inv.data_fim.mes) = false) →
      ∃ inv' r, simularMes pot inv data = .ok (inv', r) ∧
        r.valor = inv.valor_principal + r.juros_acumulados) ∧
    (((data.ano == inv.data_fim.ano && data.mes == inv.data_fim.mes) = true) →
      ∃ inv' r, simularMes pot inv data = .ok (inv', r) ∧
        r.valor = 0 ∧ r.juros_pagos = true ∧
        (¬(inv.indexador = some "IPCA" ∧ inv.operador = some Operador.aditivo) →
          r.valor_juros_pagos = inv.valor_principal + (u.juros_acumulados + r.juros)) ∧
        ((inv.indexador = some "IPCA" ∧ inv.operador = some Operador.aditivo) →
          r.valor_juros_pagos = inv'.principal_inflacionado + (u.juros_acumulados + r.juros))) := by
  have hacc := passoAcumulacao_acc pot inv data du u hne hu hjs
  have hjsA : (passoAcumulacao pot inv data).inv.juros_semestrais = false := by
    rw [passoAcumulacao_inv_juros_semestrais]; exact hjs
  constructor
  · intro hv
    simp only [simularMes, hnl, Bool.false_eq_true, if_false]
    refine ⟨_, _, rfl, ?_⟩
    have hid : passoCupom (passoAcumulacao pot inv data) data = passoAcumulacao pot inv data :=
      passoCupom_sem_evento _ _ hjsA
        (by rw [passoAcumulacao_inv_data_fim]; exact hv)
    show (montarResultado pot (passoCupom (passoAcumulacao pot inv data) data) data).valor = _
    rw [hid]
    show (passoAcumulacao pot inv data).valor_atual =
      inv.valor_principal + (passoAcumulacao pot inv data).juros_acumulados
    rw [hacc.2, hacc.1, hval]
    ring
  · intro hv
    simp only [simularMes, hnl, Bool.false_eq_true, if_false]
    have hcv := passoCupom_vencimento_sem_cupom (passoAcumulacao pot inv data) data hjsA
      (by rw [passoAcumulacao_inv_data_fim]; exact hv)
    rw [passoAcumulacao_inv_indexador, passoAcumulacao_inv_operador] at hcv
    have hrj : (montarResultado pot (passoCupom (passoAcumulacao pot inv data) data) data).juros =
        (passoAcumulacao pot inv data).juros_mes := by
      show (passoCupom (passoAcumulacao pot inv data) data).juros_mes = _
      rw [passoCupom_juros_mes]
    by_cases hip : inv.indexador = some "IPCA" ∧ inv.operador = some Operador.aditivo
    · rw [if_pos hip] at hcv
      have hvjp : (montarResultado pot (passoCupom (passoAcumulacao pot inv data) data) data).valor_juros_pagos =
          (passoAcumulacao pot inv data).inv.principal_inflacionado +
            (passoAcumulacao pot inv data).juros_acumulados := by
        rw [hcv]
        rfl
      have hpi : ({ (passoCupom (passoAcumulacao pot inv data) data).inv with
          historico := updA (passoCupom (passoAcumulacao pot inv data) data).inv.historico data
            (montarResultado pot (passoCupom (passoAcumulacao pot inv data) data) data) } : Investimento).principal_inflacionado =
          (passoAcumulacao pot inv data).inv.principal_inflacionado := by
        show (passoCupom (passoAcumulacao pot inv data) data).inv.principal_inflacionado = _
        rw [passoCupom_inv_principal_inflacionado]
      refine ⟨_, _, rfl, ?_, ?_, ?_, ?_⟩
      · show (montarResultado pot (passoCupom (passoAcumulacao pot inv data) data) data).valor = 0
        rw [hcv]
        rfl
      · show (montarResultado pot (passoCupom (passoAcumulacao pot inv data) data) data).juros_pagos = true
        rw [hcv]
        rfl
      · intro hni
        exact absurd hip hni
      · intro _
        rw [hvjp, hpi, hrj, hacc.1]
    · rw [if_neg hip] at hcv
      have hvjp : (montarResultado pot (passoCupom (passoAcumulacao pot inv data) data) data).valor_juros_pagos =
          (passoAcumulacao pot inv data).valor_atual := by
        rw [hcv]
        rfl
      refine ⟨_, _, rfl, ?_, ?_, ?_, ?_⟩
      · show (montarResultado pot (passoCupom (passoAcumulacao pot inv data) data) data).valor = 0
        rw [hcv]
        rfl
      · show (montarResultado pot (passoCupom (passoAcumulacao pot inv data) data) data).juros_pagos = true
        rw [hcv]
        rfl
      · intro _
        rw [hvjp, hrj, hacc.2, hval]
        ring
      · intro hip2
        exact absurd hip2 hip

/-- Counterexample to C4 as stated: at the maturity of the inflation-linked
`invIpcaEx` (coupons disabled) the stored value is zeroed, but the payout
`1018.056` is the inflation-corrected principal `1004` plus accrued
interest `14.056` — NOT the original principal `1000` plus accrued
interest (`1014.056`). -/
theorem simularMes_vencimento_contraexemplo :
    simularMes pot112ex invIpcaEx ⟨2023, 1, 1⟩ = .ok (invIpca1, resIpca1) ∧
    simularMes pot112ex invIpca1 ⟨2023, 2, 1⟩ = .ok (invIpca2, resIpca2) ∧
    invIpcaEx.juros_semestrais = false ∧
    ((2023 : Nat) == invIpcaEx.data_fim.ano && (2 : Nat) == invIpcaEx.data_fim.mes) = true ∧
    resIpca2.valor = 0 ∧
    resIpca2.valor_juros_pagos ≠
      invIpcaEx.valor_principal + (resIpca1.juros_acumulados + resIpca2.juros) := by
  refine ⟨?_, ?_, by decide, by decide, by norm_num [resIpca2], ?_⟩
  · norm_num [simularMes, passoAcumulacao, passoCupom, montarResultado, invIpcaEx,
      mkInvestimentoIPCA, mkInvestimento, obterTaxaMensal, obterValorIndexador,
      calcularValorCupom, ehMesPagamentoJuros, resultadoInicial, pot112ex, dataLt,
      dataEq, updA, lookupA, ultimoResultado, invIpca1, resIpca1, str_ipca_ne_pref,
      str_ipca_ne_cdi]
  · norm_num [simularMes, passoAcumulacao, passoCupom, montarResultado, invIpcaEx,
      mkInvestimentoIPCA, mkInvestimento, obterTaxaMensal, obterValorIndexador,
      calcularValorCupom, ehMesPagamentoJuros, resultadoInicial, pot112ex, dataLt,
      dataEq, updA, lookupA, ultimoResultado, invIpca1, invIpca2, resIpca1, resIpca2,
      str_ipca_ne_pref, str_ipca_ne_cdi]
  · norm_num [resIpca2, resIpca1, invIpcaEx, mkInvestimentoIPCA, mkInvestimento]

/-- Witness for C4: the maturity half at `invIpca1` in February 2023 (the
non-inflation branch is exercised through `invPre1`, whose maturity is
January 2026, via the non-maturity half). -/
theorem simularMes_vencimento_sem_cupom_witness :
    (∃ inv' r, simularMes pot112ex invPre1 ⟨2023, 2, 1⟩ = .ok (inv', r) ∧
      r.valor = invPre1.valor_principal + r.juros_acumulados) ∧
    (∃ inv' r, simularMes pot112ex invIpca1 ⟨2023, 2, 1⟩ = .ok (inv', r) ∧
      r.valor = 0 ∧ r.juros_pagos = true ∧
      (¬(invIpca1.indexador = some "IPCA" ∧ invIpca1.operador = some Operador.aditivo) →
        r.valor_juros_pagos = invIpca1.valor_principal + (resIpca1.juros_acumulados + r.juros)) ∧
      ((invIpca1.indexador = some "IPCA" ∧ invIpca1.operador = some Operador.aditivo) →
        r.valor_juros_pagos = inv'.principal_inflacionado + (resIpca1.juros_acumulados + r.juros))) :=
  ⟨(simularMes_vencimento_sem_cupom pot112ex invPre1 ⟨2023, 2, 1⟩ ⟨2023, 1, 1⟩ resPre1
      rfl (by decide) (by decide) rfl (by norm_num [resPre1, invPre1, invPreEx, mkInvestimento])).1
      (by decide),
   (simularMes_vencimento_sem_cupom pot112ex invIpca1 ⟨2023, 2, 1⟩ ⟨2023, 1, 1⟩
      resIpca1 rfl (by decide) (by decide) rfl
      (by norm_num [resIpca1, invIpca1, invIpcaEx, mkInvestimentoIPCA,
        mkInvestimento])).2 (by decide)⟩

theorem passoAcumulacao_historico_nonempty (pot : ℚ → ℚ) (inv : Investimento)
    (data : Data) (h : inv.historico.isEmpty = false) :
    (passoAcumulacao pot inv data).inv.historico = inv.historico := by
  simp only [passoAcumulacao, h, Bool.false_eq_true, if_false]
  repeat' split
  all_goals rfl

/-- C5 (amended).  A `simular_mes` call stores the new snapshot under the
requested date and leaves every other existing history entry exactly in
place — but the history is NEVER cleared: entries from earlier runs
persist, and re-simulating an already-present date overwrites that single
entry in place. -/
theorem simularMes_historico_preserva (pot : ℚ → ℚ) (inv : Investimento)
    (data : Data) (inv' : Investimento) (r : ResultadoMensal)
    (h : simularMes pot inv data = .ok (inv', r)) :
    lookupA inv'.historico data = some r ∧
    ∀ d' v, lookupA inv.historico d' = some v →
      ∃ v', lookupA inv'.historico d' = some v' ∧ (dataEq d' data = false → v' = v) := by
  by_cases hlt : dataLt data inv.data_inicio = true
  · simp [simularMes, hlt] at h
  · rw [Bool.not_eq_true] at hlt
    simp only [simularMes, hlt, Bool.false_eq_true, if_false, Except.ok.injEq,
      Prod.mk.injEq] at h
    obtain ⟨hinv, hr⟩ := h
    constructor
    · rw [← hinv, ← hr]
      exact lookupA_updA_self _ _ _
    · intro d' v hv
      have hnil : inv.historico.isEmpty = false := lookupA_ne_nil hv
      have hist : (passoCupom (passoAcumulacao pot inv data) data).inv.historico =
          inv.historico := by
        rw [passoCupom_inv_historico]
        exact passoAcumulacao_historico_nonempty pot inv data hnil
      by_cases hd : dataEq d' data = true
      · rcases dataEq_iff.mp hd with rfl
        refine ⟨r, ?_, ?_⟩
        · rw [← hinv, ← hr]
          exact lookupA_updA_self _ _ _
        · intro hfalse
          rw [hd] at hfalse
          exact absurd hfalse (by simp)
      · rw [Bool.not_eq_true] at hd
        refine ⟨v, ?_, fun _ => rfl⟩
        rw [← hinv]
        show lookupA (updA _ data _) d' = some v
        rw [lookupA_updA_of_ne _ _ _ _ hd, hist]
        exact hv

/-- Counterexample to C5 as stated: a fresh portfolio simulation run does
NOT clear the instrument history.  After simulating `cartZ` over Jan-Feb
2023 and then running a fresh simulation over Mar-Apr 2023, the
instrument's history still holds the January and February entries. -/
theorem carteira_sem_limpeza_contraexemplo :
    cartZ2.investimentos.map (fun p => p.2.historico.map Prod.fst) =
      [[⟨2023, 1, 1⟩, ⟨2023, 2, 1⟩, ⟨2023, 3, 1⟩, ⟨2023, 4, 1⟩]] := by
  norm_num [cartZ2, cartZ1, cartZ, simularCarteira, simularCarteiraAux,
    simularMesCarteira, gerarMeses, gerarMesesAux, proximoMes, invZero,
    mkInvestimento, simularMes, passoAcumulacao, passoCupom, montarResultado,
    obterTaxaMensal, obterValorIndexador, calcularValorCupom, ehMesPagamentoJuros,
    resultadoInicial, potConst, dataLt, dataEq, updA, lookupA, ultimoResultado]

/-- Witness for C5: re-simulating March 2023 on `invPre2`'s successor state
keeps the January entry intact. -/
theorem simularMes_historico_preserva_witness :
    ∃ v', lookupA invPre3.historico ⟨2023, 1, 1⟩ = some v' ∧
      (dataEq ⟨2023, 1, 1⟩ ⟨2023, 3, 1⟩ = false → v' = resPre1) :=
  (simularMes_historico_preserva pot112ex invPre2 ⟨2023, 3, 1⟩ invPre3 resPre3
      (by norm_num [simularMes, passoAcumulacao, passoCupom, montarResultado, invPreEx,
        mkInvestimento, obterTaxaMensal, obterValorIndexador, calcularValorCupom,
        ehMesPagamentoJuros, resultadoInicial, pot112ex, dataLt, dataEq, updA, lookupA,
        ultimoResultado, invPre1, invPre2, invPre3, resPre1, resPre2, resPre3,
        opt_pref_ne_ipca, str_pref_ne_ipca, str_pref_ne_cdi, opt_pref_ne_cdi])).2
    ⟨2023, 1, 1⟩ resPre1 rfl

theorem simularMesCarteira_total (pot : ℚ → ℚ) (mes : Data) :
    ∀ invs : List (String × Investimento),
      (simularMesCarteira pot mes invs).2.2.1 =
        somaDefinidos (simularMesCarteira pot mes invs).2.1 := by
  intro invs
  induction invs with
  | nil => simp [simularMesCarteira, somaDefinidos]
  | cons p t ih =>
      by_cases hst : dataLt mes p.2.data_inicio = true
      · simp only [simularMesCarteira, hst, Bool.not_true, Bool.false_eq_true, if_false]
        simp [somaDefinidos, List.filterMap_cons, ih]
      · rw [Bool.not_eq_true] at hst
        cases hsim : simularMes pot p.2 mes with
        | ok q =>
            simp only [simularMesCarteira, hst, Bool.not_false, if_true, hsim]
            simp [somaDefinidos, List.filterMap_cons, ih]
        | error e =>
            simp only [simularMesCarteira, hst, Bool.not_false, if_true, hsim]
            simp [somaDefinidos, List.filterMap_cons, ih]

theorem simularMesCarteira_celulas (pot : ℚ → ℚ) (mes : Data) :
    ∀ invs : List (String × Investimento),
      List.Forall₂ (fun (cell : String × Option ℚ) (p : String × Investimento) =>
          cell.1 = p.1 ∧
          (cell.2 = none ↔ (dataLt mes p.2.data_inicio = true ∨
            simularMes pot p.2 mes = .error ())))
        (simularMesCarteira pot mes invs).2.1 invs := by
  intro invs
  induction invs with
  | nil => simp [simularMesCarteira]
  | cons p t ih =>
      by_cases hst : dataLt mes p.2.data_inicio = true
      · simp only [simularMesCarteira, hst, Bool.not_true, Bool.false_eq_true, if_false]
        exact List.Forall₂.cons ⟨rfl, by simp [hst]⟩ ih
      · rw [Bool.not_eq_true] at hst
        cases hsim : simularMes pot p.2 mes with
        | ok q =>
            simp only [simularMesCarteira, hst, Bool.not_false, if_true, hsim]
            refine List.Forall₂.cons ⟨rfl, ?_⟩ ih
            simp [hst, hsim]
        | error e =>
            simp only [simularMesCarteira, hst, Bool.not_false, if_true, hsim]
            refine List.Forall₂.cons ⟨rfl, ?_⟩ ih
            simp [hst, hsim]

theorem simularCarteiraAux_linhas (pot : ℚ → ℚ) :
    ∀ (meses : List Data) (invs : List (String × Investimento)) (mes : Data)
      (row : List (String × Option ℚ)),
      (mes, row) ∈ (simularCarteiraAux pot meses invs).2.1 →
      ∃ cells, row = cells ++ [("Total", some (somaDefinidos cells))] := by
  intro meses
  induction meses with
  | nil => intro invs mes row h; simp [simularCarteiraAux] at h
  | cons m resto ih =>
      intro invs mes row h
      simp only [simularCarteiraAux, List.mem_cons] at h
      rcases h with h | h
      · rw [Prod.mk.injEq] at h
        obtain ⟨hm, hrow⟩ := h
        refine ⟨(simularMesCarteira pot m invs).2.1, ?_⟩
        rw [hrow, simularMesCarteira_total pot m invs]
      · exact ih _ mes row h

/-- C6.  In every simulated month of a portfolio run, the "Total" cell is
the sum of exactly the defined per-instrument cells of that month: an
instrument whose start date is after the month, or whose monthly valuation
raises, contributes an undefined (`NaN`) cell that is excluded from the
sum rather than aborting the run. -/
theorem carteira_total_soma (pot : ℚ → ℚ) :
    (∀ (mes : Data) (invs : List (String × Investimento)),
      (simularMesCarteira pot mes invs).2.2.1 =
        somaDefinidos (simularMesCarteira pot mes invs).2.1 ∧
      List.Forall₂ (fun (cell : String × Option ℚ) (p : String × Investimento) =>
          cell.1 = p.1 ∧
          (cell.2 = none ↔ (dataLt mes p.2.data_inicio = true ∨
            simularMes pot p.2 mes = .error ())))
        (simularMesCarteira pot mes invs).2.1 invs) ∧
    (∀ (c : Carteira) (d0 d1 mes : Data) (row : List (String × Option ℚ)),
      (mes, row) ∈ (simularCarteira pot c d0 d1).2.resultado_mensal →
      ∃ cells, row = cells ++ [("Total", some (somaDefinidos cells))]) := by
  refine ⟨fun mes invs => ⟨simularMesCarteira_total pot mes invs,
    simularMesCarteira_celulas pot mes invs⟩, ?_⟩
  intro c d0 d1 mes row h
  exact simularCarteiraAux_linhas pot (gerarMeses d0 d1) c.investimentos mes row h

/-- Witness for C6: the January 2023 row of the staggered-start two-
instrument portfolio `cartDois` simulated over Jan-Feb 2023 — instrument
"b" has not started and its cell is undefined; the Total equals
instrument "z"'s value alone. -/
theorem carteira_total_soma_witness :
    ∃ cells, ([("z", some (1000 : ℚ)), ("b", none), ("Total", some 1000)] :
        List (String × Option ℚ)) =
      cells ++ [("Total", some (somaDefinidos cells))] :=
  (carteira_total_soma potConst).2 cartDois ⟨2023, 1, 1⟩ ⟨2023, 2, 1⟩ ⟨2023, 1, 1⟩ _
    (by norm_num [simularCarteira, simularCarteiraAux, simularMesCarteira, gerarMeses,
      gerarMesesAux, proximoMes, cartDois, invZero, invZeroB, mkInvestimento, simularMes,
      passoAcumulacao, passoCupom, montarResultado, obterTaxaMensal, obterValorIndexador,
      calcularValorCupom, ehMesPagamentoJuros, resultadoInicial, potConst, dataLt, dataEq,
      updA, lookupA, ultimoResultado])

theorem passoAcumulacao_historico_cases (pot : ℚ → ℚ) (inv : Investimento) (data : Data) :
    (passoAcumulacao pot inv data).inv.historico = inv.historico ∨
    (passoAcumulacao pot inv data).inv.historico =
      updA inv.historico inv.data_inicio (resultadoInicial inv) := by
  simp only [passoAcumulacao]
  repeat' split
  all_goals first
  | exact Or.inl rfl
  | exact Or.inr rfl

theorem somaJurosPagos_eq (d0 d1 : Data) :
    ∀ h : List (Data × ResultadoMensal),
      (∀ p ∈ h, p.2.juros_pagos = false → p.2.valor_juros_pagos = 0) →
      somaJurosPagos h d0 d1 =
        (h.filter (fun p => dataLt d0 p.1 && dataLe p.1 d1)).foldr
          (fun p acc => p.2.valor_juros_pagos + acc) 0 := by
  intro h
  induction h with
  | nil => intro _; rfl
  | cons p t ih =>
      intro hc
      have hct := fun q hq => hc q (List.mem_cons_of_mem _ hq)
      have hcp := hc p (List.mem_cons_self _ _)
      cases hf : p.2.juros_pagos with
      | true =>
          by_cases hdc : (dataLt d0 p.1 && dataLe p.1 d1) = true
          · simp only [somaJurosPagos, List.filter_cons, hdc, hf, Bool.and_true,
              if_true, List.foldr_cons] at ih ⊢
            rw [ih hct]
          · simp only [somaJurosPagos, List.filter_cons, hdc, hf, Bool.and_true,
              Bool.false_eq_true, if_false] at ih ⊢
            rw [ih hct]
      | false =>
          have h0 := hcp hf
          by_cases hdc : (dataLt d0 p.1 && dataLe p.1 d1) = true
          · simp only [somaJurosPagos, List.filter_cons, hdc, hf, Bool.and_false,
              Bool.false_eq_true, if_false, if_true, List.foldr_cons] at ih ⊢
            rw [ih hct, h0, zero_add]
          · simp only [somaJurosPagos, List.filter_cons, hdc, hf, Bool.and_false,
              Bool.false_eq_true, if_false] at ih ⊢
            rw [ih hct]

/-- C7.  Simulated histories only contain snapshots whose coupon amount is
zero when the coupon flag is unset, and on any such history the rentability
operation over two recorded dates returns exactly (value at the end date +
all coupon payouts recorded strictly after the start date and up to the end
date) / value at the start date - 1. -/
theorem calcularRentabilidade_spec :
    (∀ (pot : ℚ → ℚ) (inv : Investimento) (data : Data) (inv' : Investimento)
        (r : ResultadoMensal),
      simularMes pot inv data = .ok (inv', r) →
      (∀ p ∈ inv.historico, p.2.juros_pagos = false → p.2.valor_juros_pagos = 0) →
      ∀ p ∈ inv'.historico, p.2.juros_pagos = false → p.2.valor_juros_pagos = 0) ∧
    (∀ (inv : Investimento) (d0 d1 : Data) (r0 r1 : ResultadoMensal),
      (∀ p ∈ inv.historico, p.2.juros_pagos = false → p.2.valor_juros_pagos = 0) →
      lookupA inv.historico d0 = some r0 →
      lookupA inv.historico d1 = some r1 →
      calcularRentabilidade inv (some d0) (some d1) =
        .ok (rentabilidadeSpec inv.historico d0 d1 r0.valor r1.valor)) := by
  constructor
  · intro pot inv data inv' r h hclean p hp hflag
    by_cases hlt : dataLt data inv.data_inicio = true
    · simp [simularMes, hlt] at h
    · rw [Bool.not_eq_true] at hlt
      simp only [simularMes, hlt, Bool.false_eq_true, if_false, Except.ok.injEq,
        Prod.mk.injEq] at h
      obtain ⟨hinv, -⟩ := h
      rw [← hinv] at hp
      rcases mem_updA hp with hcase | hcase
      · have hPj : (passoCupom (passoAcumulacao pot inv data) data).juros_pagos = false := by
          have : p.2.juros_pagos =
              (passoCupom (passoAcumulacao pot inv data) data).juros_pagos := by
            rw [hcase]
            rfl
          rw [← this, hflag]
        have hid := passoCupom_of_juros_pagos_false _ _ hPj
        have : p.2.valor_juros_pagos =
            (passoCupom (passoAcumulacao pot inv data) data).valor_juros_pagos := by
          rw [hcase]
          rfl
        rw [this, hid, passoAcumulacao_valor_juros_pagos]
      · rw [passoCupom_inv_historico] at hcase
        rcases passoAcumulacao_historico_cases pot inv data with hh | hh
        · rw [hh] at hcase
          exact hclean p hcase hflag
        · rw [hh] at hcase
          rcases mem_updA hcase with hcase' | hcase'
          · rw [hcase']
            rfl
          · exact hclean p hcase' hflag
  · intro inv d0 d1 r0 r1 hclean h0 h1
    have hnil := lookupA_ne_nil h0
    simp only [calcularRentabilidade, hnil, Bool.false_eq_true, if_false,
      Option.getD_some, h0, h1]
    rw [somaJurosPagos_eq d0 d1 inv.historico hclean]
    rfl

/-- Witness for C7: the hand-written history `histDois` (inception plus a
month paying a coupon of 5) satisfies the cleanliness hypothesis, and the
rentability from January to February 2023 matches the specification
formula. -/
theorem calcularRentabilidade_spec_witness :
    calcularRentabilidade invHistDois (some ⟨2023, 1, 1⟩) (some ⟨2023, 2, 1⟩) =
      .ok (rentabilidadeSpec invHistDois.historico ⟨2023, 1, 1⟩ ⟨2023, 2, 1⟩
        (resultadoInicial invPreEx).valor resCupomFev.valor) :=
  (calcularRentabilidade_spec).2 invHistDois ⟨2023, 1, 1⟩ ⟨2023, 2, 1⟩
    (resultadoInicial invPreEx) resCupomFev
    (by
      intro p hp
      simp only [invHistDois, histDois, List.mem_cons, List.not_mem_nil, or_false] at hp
      rcases hp with rfl | rfl
      · intro _; rfl
      · intro hfx
        simp [resCupomFev] at hfx)
    rfl rfl

/-- C8 (amended).  Multi-scenario simulation never touches the calling
motor's portfolio: the instruments it simulates are newly constructed
clones, which preserve name, principal, start/maturity dates, rate,
currency, coupon flag and concrete class, start with an empty history —
but have their per-instance IPCA override source reset to empty (and, for
plain base-class instruments, indexador, operador, default index rates and
coupon months reset to constructor defaults), so the clone configuration
is not identical in general. -/
theorem simularMultiplosCenarios_frame (pot : ℚ → ℚ) :
    (∀ (m : MotorSimulacao) (cens : List String),
      (simularMultiplosCenarios pot m cens).1.carteira = m.carteira) ∧
    (∀ inv : Investimento,
      (copiarInvestimento inv).nome = inv.nome ∧
      (copiarInvestimento inv).valor_principal = inv.valor_principal ∧
      (copiarInvestimento inv).data_inicio = inv.data_inicio ∧
      (copiarInvestimento inv).data_fim = inv.data_fim ∧
      (copiarInvestimento inv).taxa = inv.taxa ∧
      (copiarInvestimento inv).moeda = inv.moeda ∧
      (copiarInvestimento inv).juros_semestrais = inv.juros_semestrais ∧
      (copiarInvestimento inv).classe = inv.classe ∧
      (copiarInvestimento inv).historico = [] ∧
      (copiarInvestimento inv).fonte_ipca = []) := by
  constructor
  · intro m cens
    induction cens generalizing m with
    | nil => rfl
    | cons c resto ih =>
        simp only [simularMultiplosCenarios]
        rw [ih]
  · intro inv
    cases hc : inv.classe
    all_goals simp [copiarInvestimento, hc, mkInvestimentoIPCA,
      mkInvestimentoPrefixado, mkInvestimento]

/-- Counterexample to C8 as stated: cloning drops the injected IPCA
override source, so the clone's configuration is not identical to the
original's. -/
theorem copiarInvestimento_contraexemplo :
    invIpcaFonte.fonte_ipca = [(⟨2023, 2, 1⟩, 1/100)] ∧
    (copiarInvestimento invIpcaFonte).fonte_ipca = [] ∧
    ([(⟨2023, 2, 1⟩, (1/100 : ℚ))] : List (Data × ℚ)) ≠ [] := by
  refine ⟨rfl, rfl, by simp⟩

end Investi
